import Mathlib

/-!
Verification of the LaochenDNS provider-adapter layer.

This file shallowly embeds the Rust source under `src/desktop/src-tauri/src`
(the command dispatcher `commands.rs`, the shared data model `types.rs`, the
error type `error.rs`, and the per-provider clients under `providers/`) as
executable Lean definitions, and proves properties of the embedding.

Modelling conventions:
- Rust `String`/`&str` become Lean `String`; machine integers (`u8`, `u16`,
  `u32`, `u64`) become `Nat`, with explicit bounds where the Rust type's
  range matters (e.g. `parse::<u16>` succeeds only below `65536`).
- The std string primitives the source uses (`split_whitespace`, `trim`,
  `ends_with`, `strip_suffix`, `starts_with`, `split('.')`, `contains`,
  integer `Display`/`FromStr`) are re-implemented here on `List Char`
  with their documented semantics, so that theorems can reason about them.
  Whitespace is modelled as the ASCII whitespace characters; the concrete
  strings appearing in the claims only ever use `' '`.
- Network I/O is modelled by environments: the outcome a provider endpoint
  would return (a list of records, an HTTP status, a decoded body) is an
  input, and the functions under verification are the pure response/request
  processing taken verbatim from the source.  Functions that issue
  mutations additionally return the list of provider calls they perform.
-/

deriving instance DecidableEq for Except

namespace LaochenDNS

/-! ## String primitives (models of the Rust std functions used by the source) -/

/-- ASCII whitespace, the model of `char::is_whitespace` used here. -/
def isWS (c : Char) : Bool :=
  c = ' ' || c = '\t' || c = '\n' || c = '\r' || c = '\x0b' || c = '\x0c'

/-- Accumulator-style tokenizer behind `splitWhitespace`. -/
def splitWSAux : List Char → List Char → List (List Char)
  | [], cur => if cur.isEmpty then [] else [cur.reverse]
  | c :: rest, cur =>
    if isWS c then
      if cur.isEmpty then splitWSAux rest []
      else cur.reverse :: splitWSAux rest []
    else splitWSAux rest (c :: cur)

/-- Model of Rust `str::split_whitespace().collect::<Vec<_>>()`. -/
def splitWhitespace (s : String) : List String :=
  (splitWSAux s.data []).map (fun cs => ⟨cs⟩)

/-- Model of `Vec<&str>::join(" ")`. -/
def joinSpace (l : List String) : String :=
  String.intercalate " " l

/-- Model of Rust `str::ends_with`. -/
def strEndsWith (s suf : String) : Bool :=
  suf.data.isSuffixOf s.data

/-- Model of Rust `str::starts_with`. -/
def strStartsWith (s pre : String) : Bool :=
  pre.data.isPrefixOf s.data

/-- Model of Rust `str::strip_suffix`. -/
def strStripSuffix (s suf : String) : Option String :=
  if strEndsWith s suf then some ⟨s.data.take (s.data.length - suf.data.length)⟩
  else none

/-- Model of Rust `str::trim` (both ends, whitespace). -/
def strTrim (s : String) : String :=
  ⟨((s.data.dropWhile isWS).reverse.dropWhile isWS).reverse⟩

/-- Substring test on character lists, behind `strContains`. -/
def listContainsSub (needle : List Char) : List Char → Bool
  | [] => needle.isEmpty
  | c :: rest => needle.isPrefixOf (c :: rest) || listContainsSub needle rest

/-- Model of Rust `str::contains(&str)`. -/
def strContains (s needle : String) : Bool :=
  listContainsSub needle.data s.data

/-- Model of Rust `str::split(sep)` for a single-character separator
(keeps empty fields, like the Rust iterator). -/
def splitOnCharAux (sep : Char) : List Char → List Char → List (List Char)
  | [], cur => [cur.reverse]
  | c :: rest, cur =>
    if c = sep then cur.reverse :: splitOnCharAux sep rest []
    else splitOnCharAux sep rest (c :: cur)

/-- Split a string on a separator character, keeping empty parts. -/
def splitOnChar (sep : Char) (s : String) : List String :=
  (splitOnCharAux sep s.data []).map (fun cs => ⟨cs⟩)

/-- Lower-casing model of `str::to_lowercase` (per-character). -/
def strToLower (s : String) : String :=
  ⟨s.data.map Char.toLower⟩

/-! ## Decimal integers: Rust `Display` and `FromStr` for unsigned types -/

/-- ASCII decimal digit test (model of `char::is_ascii_digit`). -/
def isDigitChar (c : Char) : Bool :=
  48 ≤ c.toNat && c.toNat ≤ 57

/-- The character of a single decimal digit. -/
def digitChar (d : Nat) : Char := Char.ofNat (48 + d)

/-- Fuel-indexed decimal digit emitter (most significant first). -/
def natDigitsAux : Nat → Nat → List Char
  | _, 0 => []
  | n, fuel + 1 =>
    if n < 10 then [digitChar n]
    else natDigitsAux (n / 10) fuel ++ [digitChar (n % 10)]

/-- Model of the Rust `Display` of an unsigned integer. -/
def natToString (n : Nat) : String := ⟨natDigitsAux n (n + 1)⟩

/-- Numeric value of a decimal digit string (`none` if empty or non-digit). -/
def digitsValue (cs : List Char) : Option Nat :=
  if cs.isEmpty then none
  else if cs.all isDigitChar then
    some (cs.foldl (fun acc c => acc * 10 + (c.toNat - 48)) 0)
  else none

/-- Model of Rust `str::parse::<uN>()` where `bound` is `2^N`: an optional
leading `+`, then one or more decimal digits, value below `bound`. -/
def rustParseUnsigned (bound : Nat) (s : String) : Option Nat :=
  let cs := if s.data.headD 'x' = '+' then s.data.tail else s.data
  match digitsValue cs with
  | some n => if n < bound then some n else none
  | none => none

/-- `parse::<u8>`. -/
def parseU8 (s : String) : Option Nat := rustParseUnsigned 256 s

/-- `parse::<u16>`. -/
def parseU16 (s : String) : Option Nat := rustParseUnsigned 65536 s

/-- `parse::<u64>`. -/
def parseU64 (s : String) : Option Nat := rustParseUnsigned (2 ^ 64) s

/-! ## SHA-256, HMAC-SHA256 and hex encoding

Executable models of the `sha2`/`hmac`/`hex` crates used by the Tencent
Cloud signer.  Bytes are `Nat`s below 256; words are `Nat`s reduced
modulo `2 ^ 32`. -/

/-- Truncation to a 32-bit word. -/
def w32 (n : Nat) : Nat := n % 2 ^ 32

/-- 32-bit right rotation. -/
def rotr32 (x n : Nat) : Nat := w32 ((x >>> n) ||| (x <<< (32 - n)))

/-- 32-bit exclusive or (already bounded for bounded inputs). -/
def xor32 (a b : Nat) : Nat := a ^^^ b

/-- SHA-256 round constants (FIPS 180-4, written in decimal). -/
def sha256K : List Nat :=
  [1116352408, 1899447441, 3049323471, 3921009573, 961987163,
   1508970993, 2453635748, 2870763221, 3624381080, 310598401,
   607225278, 1426881987, 1925078388, 2162078206, 2614888103,
   3248222580, 3835390401, 4022224774, 264347078, 604807628,
   770255983, 1249150122, 1555081692, 1996064986, 2554220882,
   2821834349, 2952996808, 3210313671, 3336571891, 3584528711,
   113926993, 338241895, 666307205, 773529912, 1294757372,
   1396182291, 1695183700, 1986661051, 2177026350, 2456956037,
   2730485921, 2820302411, 3259730800, 3345764771, 3516065817,
   3600352804, 4094571909, 275423344, 430227734, 506948616,
   659060556, 883997877, 958139571, 1322822218, 1537002063,
   1747873779, 1955562222, 2024104815, 2227730452, 2361852424,
   2428436474, 2756734187, 3204031479, 3329325298]

/-- SHA-256 initial hash state (FIPS 180-4, written in decimal). -/
def sha256H0 : List Nat :=
  [1779033703, 3144134277, 1013904242, 2773480762,
   1359893119, 2600822924, 528734635, 1541459225]

/-- Big-endian bytes-to-words conversion (4 bytes per word). -/
def bytesToWords : List Nat → List Nat
  | b0 :: b1 :: b2 :: b3 :: rest =>
      (b0 * 2 ^ 24 + b1 * 2 ^ 16 + b2 * 2 ^ 8 + b3) :: bytesToWords rest
  | _ => []

/-- Big-endian word-to-bytes conversion. -/
def wordToBytes (x : Nat) : List Nat :=
  [x / 2 ^ 24 % 256, x / 2 ^ 16 % 256, x / 2 ^ 8 % 256, x % 256]

/-- Extend the 16 message words to the 64-entry schedule. -/
def sha256Schedule (acc : List Nat) : Nat → List Nat
  | 0 => acc
  | fuel + 1 =>
    if acc.length ≥ 64 then acc
    else
      let i := acc.length
      let get := fun j => acc.getD j 0
      let s0 := xor32 (xor32 (rotr32 (get (i - 15)) 7) (rotr32 (get (i - 15)) 18))
          ((get (i - 15)) >>> 3)
      let s1 := xor32 (xor32 (rotr32 (get (i - 2)) 17) (rotr32 (get (i - 2)) 19))
          ((get (i - 2)) >>> 10)
      sha256Schedule (acc ++ [w32 (get (i - 16) + s0 + get (i - 7) + s1)]) fuel

/-- One round of the SHA-256 compression function. -/
def sha256Round (st : List Nat) (k wrd : Nat) : List Nat :=
  match st with
  | [a, b, c, d, e, f, g, h] =>
    let s1 := xor32 (xor32 (rotr32 e 6) (rotr32 e 11)) (rotr32 e 25)
    let ch := xor32 (e &&& f) ((2 ^ 32 - 1 - e) &&& g)
    let t1 := w32 (h + s1 + ch + k + wrd)
    let s0 := xor32 (xor32 (rotr32 a 2) (rotr32 a 13)) (rotr32 a 22)
    let mj := xor32 (xor32 (a &&& b) (a &&& c)) (b &&& c)
    let t2 := w32 (s0 + mj)
    [w32 (t1 + t2), a, b, c, w32 (d + t1), e, f, g]
  | st => st

/-- Compress one 64-byte block into the running state. -/
def sha256Block (h : List Nat) (block : List Nat) : List Nat :=
  let ws := sha256Schedule (bytesToWords block) 48
  let st := (sha256K.zip ws).foldl (fun st p => sha256Round st p.1 p.2) h
  (h.zip st).map (fun p => w32 (p.1 + p.2))

/-- Split a byte list into 64-byte chunks. -/
def chunks64 : List Nat → List (List Nat)
  | [] => []
  | a :: rest => (a :: rest).take 64 :: chunks64 ((a :: rest).drop 64)
  termination_by l => l.length
  decreasing_by simp only [List.length_drop, List.length_cons]; omega

/-- SHA-256 padding: `0x80`, zeros, 8-byte big-endian bit length. -/
def sha256Pad (msg : List Nat) : List Nat :=
  let len := msg.length
  let zeros := (64 - (len + 9) % 64) % 64
  let bitLen := len * 8
  msg ++ [0x80] ++ List.replicate zeros 0 ++
    [bitLen / 2 ^ 56 % 256, bitLen / 2 ^ 48 % 256, bitLen / 2 ^ 40 % 256,
     bitLen / 2 ^ 32 % 256, bitLen / 2 ^ 24 % 256, bitLen / 2 ^ 16 % 256,
     bitLen / 2 ^ 8 % 256, bitLen % 256]

/-- SHA-256 of a byte list. -/
def sha256 (msg : List Nat) : List Nat :=
  ((chunks64 (sha256Pad msg)).foldl sha256Block sha256H0).flatMap wordToBytes

/-- HMAC-SHA256 (block size 64). -/
def hmacSha256 (key msg : List Nat) : List Nat :=
  let key := if key.length > 64 then sha256 key else key
  let key := key ++ List.replicate (64 - key.length) 0
  let opad := key.map (fun b => xor32 b 0x5c)
  let ipad := key.map (fun b => xor32 b 0x36)
  sha256 (opad ++ sha256 (ipad ++ msg))

/-- One lowercase hex digit. -/
def hexDigit (d : Nat) : Char :=
  if d < 10 then Char.ofNat (48 + d) else Char.ofNat (87 + d)

/-- Model of `hex::encode` (lowercase). -/
def hexEncode (bytes : List Nat) : String :=
  ⟨bytes.flatMap (fun b => [hexDigit (b / 16), hexDigit (b % 16)])⟩

/-- UTF-8 bytes of a string, as `Nat`s. -/
def utf8Bytes (s : String) : List Nat :=
  s.toUTF8.toList.map UInt8.toNat

/-! ## Data model (`types.rs`, `error.rs`)

`commands.rs` and the eight provider clients use the eight-variant
`Provider`; the checked-in `types.rs` lists the two-provider subset of the
same enumeration, so the embedding follows the eight-provider form used by
all the code the claims are about. -/

/-- The supported providers (`types.rs` / `commands.rs`). -/
inductive Provider
  | cloudflare
  | dnspod
  | aliyun
  | huawei
  | baidu
  | dnscom
  | rainyun
  | tencentcloud
deriving DecidableEq, Repr

/-- `AppError` from `error.rs`: a `{code, message}` pair. -/
structure AppError where
  code : String
  message : String
deriving DecidableEq, Repr

/-- `DomainStatus` from `types.rs`. -/
inductive DomainStatus
  | ok
  | authFailed
  | unreachable
  | fetchFailed
  | notConfigured
deriving DecidableEq, Repr

/-- `DomainItem` from `types.rs`. -/
structure DomainItem where
  provider : Provider
  name : String
  provider_id : String
  status : DomainStatus
  records_count : Option Nat
  last_changed_at : Option String
deriving DecidableEq, Repr

/-- `DnsRecord` from `types.rs` (`u32`/`u16`/`u8` fields as `Nat`). -/
structure DnsRecord where
  id : String
  provider : Provider
  domain : String
  record_type : String
  name : String
  content : String
  ttl : Nat
  mx_priority : Option Nat
  srv_priority : Option Nat
  srv_weight : Option Nat
  srv_port : Option Nat
  caa_flags : Option Nat
  caa_tag : Option String
deriving DecidableEq, Repr

/-- `ConflictStrategy` from `types.rs`. -/
inductive ConflictStrategy
  | doNotCreate
  | overwrite
deriving DecidableEq, Repr

/-- `RecordCreateRequest` from `types.rs`. -/
structure RecordCreateRequest where
  record_type : String
  name : String
  content : String
  ttl : Nat
  conflict_strategy : ConflictStrategy
  mx_priority : Option Nat
  srv_priority : Option Nat
  srv_weight : Option Nat
  srv_port : Option Nat
  caa_flags : Option Nat
  caa_tag : Option String
deriving DecidableEq, Repr

/-- `RecordUpdateRequest` from `types.rs`. -/
structure RecordUpdateRequest where
  id : String
  record_type : String
  name : String
  content : String
  ttl : Nat
  mx_priority : Option Nat
  srv_priority : Option Nat
  srv_weight : Option Nat
  srv_port : Option Nat
  caa_flags : Option Nat
  caa_tag : Option String
deriving DecidableEq, Repr

/-! ## Record value codec (`providers/tencentcloud.rs`; the other providers
carry textually identical copies named `dnspod_value`, `aliyun_value`,
`baidu_value`, `huawei_value`, `dnscom_value` and
`parse_baidu_record_value`, `parse_huawei_record_value`,
`parse_dnscom_record_value`). -/

/-- `tencent_value` from `providers/tencentcloud.rs`: flatten a structured
record value into the provider's space-joined string. -/
def tencent_value (record_type content : String) (srv_priority srv_weight srv_port : Option Nat)
    (caa_flags : Option Nat) (caa_tag : Option String) : String :=
  match record_type with
  | "SRV" =>
    natToString (srv_priority.getD 0) ++ " " ++ natToString (srv_weight.getD 0) ++ " " ++
      natToString (srv_port.getD 0) ++ " " ++ content
  | "CAA" =>
    natToString (caa_flags.getD 0) ++ " " ++ caa_tag.getD "issue" ++ " " ++ content
  | _ => content

/-- Result tuple of `parse_record_value` (named fields for readability;
the Rust function returns the same six components as a tuple). -/
structure ParsedValue where
  content : String
  srv_priority : Option Nat
  srv_weight : Option Nat
  srv_port : Option Nat
  caa_flags : Option Nat
  caa_tag : Option String
deriving DecidableEq, Repr

/-- `parse_record_value` from `providers/tencentcloud.rs`: split a flat
provider value back into structured fields (fewer tokens than required
degrades to plain content). -/
def parse_record_value (record_type value : String) : ParsedValue :=
  match record_type with
  | "SRV" =>
    match splitWhitespace value with
    | p0 :: p1 :: p2 :: p3 :: rest =>
      ⟨joinSpace (p3 :: rest), parseU16 p0, parseU16 p1, parseU16 p2, none, none⟩
    | _ => ⟨value, none, none, none, none, none⟩
  | "CAA" =>
    match splitWhitespace value with
    | p0 :: p1 :: p2 :: rest =>
      ⟨joinSpace (p2 :: rest), none, none, none, parseU8 p0, some p1⟩
    | _ => ⟨value, none, none, none, none, none⟩
  | _ => ⟨value, none, none, none, none, none⟩

/-! ## Name normalizer (`providers/cloudflare.rs`) -/

/-- `normalize_full_name` from `providers/cloudflare.rs`: zone-relative host
to the provider's absolute name.  (The second disjunct of the middle
branch is taken verbatim from the source.) -/
def normalize_full_name (zone_name host : String) : String :=
  if host == "@" || host == zone_name then zone_name
  else if strEndsWith host ("." ++ zone_name) || host == host ++ "." ++ zone_name then host
  else host ++ "." ++ zone_name

/-- The host computation of `CfDnsRecord::to_dns_record` in
`providers/cloudflare.rs` (absolute name back to zone-relative form). -/
def cf_record_host (zone_name name : String) : String :=
  if name == zone_name then "@"
  else
    match strStripSuffix name ("." ++ zone_name) with
    | some stripped => stripped
    | none => name

/-! ## IP address literals (models of Rust std `Ipv4Addr`/`Ipv6Addr`
`FromStr`, used by `validate_record_request`) -/

/-- Read one decimal IPv4 octet (at most 3 digits, no leading zero,
value at most 255), returning the value and the remaining characters. -/
def readOctet (cs : List Char) : Option (Nat × List Char) :=
  let ds := (cs.takeWhile isDigitChar).take 3
  if ds.isEmpty then none
  else if ds.length > 1 && ds.headD '0' = '0' then none
  else
    let v := ds.foldl (fun acc c => acc * 10 + (c.toNat - 48)) 0
    if v > 255 then none else some (v, cs.drop ds.length)

/-- Read `a.b.c.d`, returning the four octets and the rest. -/
def readIPv4 (cs : List Char) : Option (List Nat × List Char) :=
  match readOctet cs with
  | none => none
  | some (o1, r1) =>
    match r1 with
    | '.' :: r1 =>
      match readOctet r1 with
      | none => none
      | some (o2, r2) =>
        match r2 with
        | '.' :: r2 =>
          match readOctet r2 with
          | none => none
          | some (o3, r3) =>
            match r3 with
            | '.' :: r3 =>
              match readOctet r3 with
              | none => none
              | some (o4, r4) => some ([o1, o2, o3, o4], r4)
            | _ => none
        | _ => none
    | _ => none

/-- Model of `"…".parse::<Ipv4Addr>()`. -/
def parseIpv4 (s : String) : Option (List Nat) :=
  match readIPv4 s.data with
  | some (os, []) => some os
  | _ => none

/-- Hexadecimal digit test. -/
def isHexDigitChar (c : Char) : Bool :=
  isDigitChar c || ('a' ≤ c && c ≤ 'f') || ('A' ≤ c && c ≤ 'F')

/-- Hexadecimal digit value. -/
def hexVal (c : Char) : Nat :=
  if isDigitChar c then c.toNat - 48
  else if 'a' ≤ c && c ≤ 'f' then c.toNat - 87
  else c.toNat - 55

/-- Read one IPv6 hex group (1–4 hex digits, leading zeros allowed). -/
def readHexGroup (cs : List Char) : Option (Nat × List Char) :=
  let ds := (cs.takeWhile isHexDigitChar).take 4
  if ds.isEmpty then none
  else some (ds.foldl (fun acc c => acc * 16 + hexVal c) 0, cs.drop ds.length)

/-- Expect a `:` separator before every group but the first (backtracks). -/
def tryColon (first : Bool) (cs : List Char) : Option (List Char) :=
  if first then some cs
  else
    match cs with
    | ':' :: r => some r
    | _ => none

/-- Read up to `slots` IPv6 groups (the model of std's `read_groups`):
returns the number of group slots consumed (an embedded IPv4 literal,
allowed while at least two slots remain, consumes two), the remaining
characters, and whether an embedded IPv4 literal was read. -/
def readGroupsAux : Nat → Nat → List Char → Nat × List Char × Bool
  | 0, _, cs => (0, cs, false)
  | slots + 1, i, cs =>
    let ipv4Rest : Option (List Char) :=
      if slots + 1 ≥ 2 then
        match tryColon (i == 0) cs with
        | some cs2 =>
          match readIPv4 cs2 with
          | some (_, rest) => some rest
          | none => none
        | none => none
      else none
    match ipv4Rest with
    | some rest => (2, rest, true)
    | none =>
      match tryColon (i == 0) cs with
      | some cs2 =>
        match readHexGroup cs2 with
        | some (_, rest) =>
          let r := readGroupsAux slots (i + 1) rest
          (r.1 + 1, r.2.1, r.2.2)
        | none => (0, cs, false)
      | none => (0, cs, false)

/-- Read a full IPv6 literal (the model of std's `read_ipv6_addr`):
either eight groups, or a head, a `::`, and at most `7 - head` tail
groups.  Returns the remaining characters on success. -/
def readIPv6 (cs : List Char) : Option (List Char) :=
  let h := readGroupsAux 8 0 cs
  if h.1 == 8 then some h.2.1
  else if h.2.2 then none
  else
    match h.2.1 with
    | ':' :: ':' :: rest =>
      let t := readGroupsAux (8 - (h.1 + 1)) 0 rest
      some t.2.1
    | _ => none

/-- Model of `"…".parse::<Ipv6Addr>().is_ok()`. -/
def parseIpv6ok (s : String) : Bool :=
  match readIPv6 s.data with
  | some [] => true
  | _ => false

/-! ## Request validation (`validate_record_request` in `commands.rs`) -/

/-- `validate_record_request` from `commands.rs`: checks performed before
any network call in `record_create`. -/
def validate_record_request (req : RecordCreateRequest) : Except AppError Unit :=
  let valid_types := ["A", "AAAA", "CNAME", "TXT", "MX", "NS", "SRV", "CAA"]
  if !valid_types.contains req.record_type then
    .error ⟨"invalid_type", "不支持的记录类型: " ++ req.record_type⟩
  else
    let name := strTrim req.name
    if name.isEmpty then .error ⟨"invalid_name", "主机记录不能为空"⟩
    else
      let content := strTrim req.content
      if content.isEmpty then .error ⟨"invalid_content", "记录值不能为空"⟩
      else if req.ttl < 60 || req.ttl > 86400 then
        .error ⟨"invalid_ttl", "TTL 必须在 60-86400 秒之间"⟩
      else
        match req.record_type with
        | "A" =>
          if (parseIpv4 content).isNone then
            .error ⟨"invalid_content", "A 记录必须是有效的 IPv4 地址"⟩
          else .ok ()
        | "AAAA" =>
          if !parseIpv6ok content then
            .error ⟨"invalid_content", "AAAA 记录必须是有效的 IPv6 地址"⟩
          else .ok ()
        | "CNAME" | "NS" =>
          if !strContains content "." then
            .error ⟨"invalid_content", "记录值必须是有效域名"⟩
          else .ok ()
        | "MX" =>
          if req.mx_priority.isNone then
            .error ⟨"missing_field", "MX 记录必须设置优先级"⟩
          else .ok ()
        | "SRV" =>
          if req.srv_priority.isNone || req.srv_weight.isNone || req.srv_port.isNone then
            .error ⟨"missing_field", "SRV 记录必须设置优先级、权重和端口"⟩
          else
            let parts := splitOnChar '.' name
            if parts.length < 2 || !strStartsWith (parts.getD 0 "") "_" ||
                !strStartsWith (parts.getD 1 "") "_" then
              .error ⟨"invalid_name", "SRV 主机记录需为 _service._proto 形式"⟩
            else .ok ()
        | "CAA" =>
          match req.caa_tag with
          | some tag =>
            if (strTrim tag).isEmpty then .error ⟨"invalid_caa_tag", "CAA Tag 不能为空"⟩
            else .ok ()
          | none => .ok ()
        | _ => .ok ()

/-! ## Conflict & write protocol (`record_create` in `commands.rs`)

Network effects are modelled explicitly: the outcome of the conflict
detection call (Cloudflare's server-side `find_conflict_ids`, everyone
else's `list_records`) is an input supplied by a `RecordCreateEnv`, and
the function returns the list of provider HTTP calls it issues together
with its control-flow outcome.  Responses to issued mutations are not
modelled (the source returns the mutation call's converted response; the
claims are about which calls are issued and which errors are returned
before any mutation). -/

/-- One provider HTTP call issued by `record_create`. -/
inductive ProviderCall
  | listRecords (zone_id zone_name : String)
  | findConflictIds (zone_id zone_name record_type host : String)
  | create (zone_id zone_name : String) (req : RecordCreateRequest)
  | update (zone_id zone_name : String) (req : RecordUpdateRequest)
  | delete (zone_id record_id : String)
deriving DecidableEq, Repr

/-- Whether a provider call mutates provider state. -/
def isMutationCall : ProviderCall → Bool
  | .create _ _ _ => true
  | .update _ _ _ => true
  | .delete _ _ => true
  | _ => false

/-- The `RecordUpdateRequest` each `Overwrite` arm of `record_create`
builds: the existing record's ID with the new request's field values. -/
def overwrite_update (id : String) (req : RecordCreateRequest) : RecordUpdateRequest :=
  { id := id
    record_type := req.record_type
    name := req.name
    content := req.content
    ttl := req.ttl
    mx_priority := req.mx_priority
    srv_priority := req.srv_priority
    srv_weight := req.srv_weight
    srv_port := req.srv_port
    caa_flags := req.caa_flags
    caa_tag := req.caa_tag }

/-- Environment for `record_create`: which providers have stored
credentials, and what each provider's conflict-detection call returns. -/
structure RecordCreateEnv where
  cloudflare_configured : Bool
  dnspod_configured : Bool
  aliyun_configured : Bool
  huawei_configured : Bool
  baidu_configured : Bool
  dnscom_configured : Bool
  rainyun_configured : Bool
  tencentcloud_configured : Bool
  cf_find_conflict_ids : Except AppError (List String)
  dnspod_list_records : Except AppError (List DnsRecord)
  aliyun_list_records : Except AppError (List DnsRecord)
  huawei_list_records : Except AppError (List DnsRecord)
  baidu_list_records : Except AppError (List DnsRecord)
  dnscom_list_records : Except AppError (List DnsRecord)
  rainyun_list_records : Except AppError (List DnsRecord)
  tencentcloud_list_records : Except AppError (List DnsRecord)

/-- The Cloudflare arm of `record_create` (`commands.rs`): server-side
conflict detection via `find_conflict_ids`, then the shared resolution. -/
def record_create_cloudflare (domain_id domain_name : String)
    (findRes : Except AppError (List String)) (req : RecordCreateRequest) :
    List ProviderCall × Except AppError Unit :=
  let pre := [ProviderCall.findConflictIds domain_id domain_name req.record_type req.name]
  match findRes with
  | .error e => (pre, .error e)
  | .ok conflict_ids =>
    if !conflict_ids.isEmpty then
      match req.conflict_strategy with
      | .doNotCreate => (pre, .error ⟨"conflict", "Record already exists"⟩)
      | .overwrite =>
        match conflict_ids with
        | [cid] =>
          (pre ++ [ProviderCall.update domain_id domain_name (overwrite_update cid req)], .ok ())
        | _ => (pre, .error ⟨"conflict", "Multiple conflicting records found"⟩)
    else (pre ++ [ProviderCall.create domain_id domain_name req], .ok ())

/-- The non-Cloudflare arm of `record_create` (`commands.rs`; the seven
provider arms are textually identical apart from the client): client-side
filtering of `list_records` by `(record_type, name)`, then the shared
resolution. -/
def record_create_with_list (domain_id domain_name : String)
    (listRes : Except AppError (List DnsRecord)) (req : RecordCreateRequest) :
    List ProviderCall × Except AppError Unit :=
  let pre := [ProviderCall.listRecords domain_id domain_name]
  match listRes with
  | .error e => (pre, .error e)
  | .ok existing =>
    let conflicts := existing.filter
      (fun r => r.record_type == req.record_type && r.name == req.name)
    if !conflicts.isEmpty then
      match req.conflict_strategy with
      | .doNotCreate => (pre, .error ⟨"conflict", "Record already exists"⟩)
      | .overwrite =>
        match conflicts with
        | [c] =>
          (pre ++ [ProviderCall.update domain_id domain_name (overwrite_update c.id req)], .ok ())
        | _ => (pre, .error ⟨"conflict", "Multiple conflicting records found"⟩)
    else (pre ++ [ProviderCall.create domain_id domain_name req], .ok ())

/-- `record_create` from `commands.rs` (vault decryption assumed to have
succeeded; its `AppHandle`/password plumbing is outside this layer). -/
def record_create (env : RecordCreateEnv) (provider : Provider)
    (domain_id domain_name : String) (req : RecordCreateRequest) :
    List ProviderCall × Except AppError Unit :=
  match validate_record_request req with
  | .error e => ([], .error e)
  | .ok _ =>
    match provider with
    | .cloudflare =>
      if env.cloudflare_configured then
        record_create_cloudflare domain_id domain_name env.cf_find_conflict_ids req
      else ([], .error ⟨"not_configured", "Cloudflare is not configured"⟩)
    | .dnspod =>
      if env.dnspod_configured then
        record_create_with_list domain_id domain_name env.dnspod_list_records req
      else ([], .error ⟨"not_configured", "DNSPod is not configured"⟩)
    | .aliyun =>
      if env.aliyun_configured then
        record_create_with_list domain_id domain_name env.aliyun_list_records req
      else ([], .error ⟨"not_configured", "Aliyun is not configured"⟩)
    | .huawei =>
      if env.huawei_configured then
        record_create_with_list domain_id domain_name env.huawei_list_records req
      else ([], .error ⟨"not_configured", "Huawei Cloud is not configured"⟩)
    | .baidu =>
      if env.baidu_configured then
        record_create_with_list domain_id domain_name env.baidu_list_records req
      else ([], .error ⟨"not_configured", "Baidu Cloud is not configured"⟩)
    | .dnscom =>
      if env.dnscom_configured then
        record_create_with_list domain_id domain_name env.dnscom_list_records req
      else ([], .error ⟨"not_configured", "DNS.COM is not configured"⟩)
    | .rainyun =>
      if env.rainyun_configured then
        record_create_with_list domain_id domain_name env.rainyun_list_records req
      else ([], .error ⟨"not_configured", "Rainyun is not configured"⟩)
    | .tencentcloud =>
      if env.tencentcloud_configured then
        record_create_with_list domain_id domain_name env.tencentcloud_list_records req
      else ([], .error ⟨"not_configured", "Tencent Cloud is not configured"⟩)

/-- Whether the given provider has stored credentials in the environment. -/
def provider_configured (env : RecordCreateEnv) : Provider → Bool
  | .cloudflare => env.cloudflare_configured
  | .dnspod => env.dnspod_configured
  | .aliyun => env.aliyun_configured
  | .huawei => env.huawei_configured
  | .baidu => env.baidu_configured
  | .dnscom => env.dnscom_configured
  | .rainyun => env.rainyun_configured
  | .tencentcloud => env.tencentcloud_configured

/-- The IDs of the `(record_type, name)`-matching records of a
`list_records` result (the client-side conflict filter of the
non-Cloudflare arms of `record_create`). -/
def conflict_ids_of_list (req : RecordCreateRequest)
    (res : Except AppError (List DnsRecord)) : Except AppError (List String) :=
  match res with
  | .error e => .error e
  | .ok l =>
    .ok ((l.filter (fun r => r.record_type == req.record_type && r.name == req.name)).map
      (fun r => r.id))

/-- The IDs of the conflicts `record_create` discovers, uniformly per
provider: Cloudflare's server-side `find_conflict_ids` result, or the
IDs of the `(record_type, name)`-matching records of the provider's
`list_records` result. -/
def detected_conflict_ids (env : RecordCreateEnv) (provider : Provider)
    (req : RecordCreateRequest) : Except AppError (List String) :=
  match provider with
  | .cloudflare => env.cf_find_conflict_ids
  | .dnspod => conflict_ids_of_list req env.dnspod_list_records
  | .aliyun => conflict_ids_of_list req env.aliyun_list_records
  | .huawei => conflict_ids_of_list req env.huawei_list_records
  | .baidu => conflict_ids_of_list req env.baidu_list_records
  | .dnscom => conflict_ids_of_list req env.dnscom_list_records
  | .rainyun => conflict_ids_of_list req env.rainyun_list_records
  | .tencentcloud => conflict_ids_of_list req env.tencentcloud_list_records

/-- The conflict-detection HTTP call each provider arm of `record_create`
issues first. -/
def detect_call (p : Provider) (did dn : String) (req : RecordCreateRequest) : ProviderCall :=
  match p with
  | .cloudflare => .findConflictIds did dn req.record_type req.name
  | _ => .listRecords did dn

/-! ## Domain aggregation (`domains_list` in `commands.rs`) -/

/-- Per-provider outcome for `domains_list`: `none` when the vault holds no
credentials for the provider, otherwise the provider's `list_domains`
result. -/
structure DomainsEnv where
  cloudflare : Option (Except AppError (List DomainItem))
  dnspod : Option (Except AppError (List DomainItem))
  aliyun : Option (Except AppError (List DomainItem))
  huawei : Option (Except AppError (List DomainItem))
  baidu : Option (Except AppError (List DomainItem))
  dnscom : Option (Except AppError (List DomainItem))
  rainyun : Option (Except AppError (List DomainItem))
  tencentcloud : Option (Except AppError (List DomainItem))

/-- The environment entry for a provider. -/
def domains_env_entry (env : DomainsEnv) : Provider → Option (Except AppError (List DomainItem))
  | .cloudflare => env.cloudflare
  | .dnspod => env.dnspod
  | .aliyun => env.aliyun
  | .huawei => env.huawei
  | .baidu => env.baidu
  | .dnscom => env.dnscom
  | .rainyun => env.rainyun
  | .tencentcloud => env.tencentcloud

/-- `make_error_item` from `domains_list` in `commands.rs`. -/
def make_error_item (provider : Provider) (display_name : String) (e : AppError) : DomainItem :=
  let status :=
    match e.code with
    | "auth_failed" => DomainStatus.authFailed
    | "unreachable" | "timeout" => DomainStatus.unreachable
    | _ => DomainStatus.fetchFailed
  { provider := provider
    name := display_name ++ " (错误: " ++ e.message ++ ")"
    provider_id := ""
    status := status
    records_count := none
    last_changed_at := none }

/-- The display name `domains_list` passes to `make_error_item`. -/
def error_display_name : Provider → String
  | .cloudflare => "Cloudflare"
  | .dnspod => "DNSPod"
  | .aliyun => "Aliyun"
  | .huawei => "华为云DNS"
  | .baidu => "百度智能云DNS"
  | .dnscom => "DNS.COM"
  | .rainyun => "Rainyun"
  | .tencentcloud => "腾讯云DNS"

/-- The name of the `NotConfigured` placeholder `domains_list` pushes. -/
def placeholder_name : Provider → String
  | .cloudflare => "Cloudflare"
  | .dnspod => "DNSPod"
  | .aliyun => "阿里云DNS"
  | .huawei => "华为云DNS"
  | .baidu => "百度智能云DNS"
  | .dnscom => "DNS.COM"
  | .rainyun => "雨云DNS"
  | .tencentcloud => "腾讯云DNS"

/-- The `NotConfigured` placeholder item. -/
def not_configured_item (p : Provider) : DomainItem :=
  ⟨p, placeholder_name p, "", DomainStatus.notConfigured, none, none⟩

/-- The `wants_*` test of `domains_list`. -/
def wants_provider (provider_filter : Option Provider) (p : Provider) : Bool :=
  provider_filter.isNone || provider_filter == some p

/-- One provider's `if wants_* { … }` block of `domains_list`. -/
def provider_block (wanted : Bool) (p : Provider)
    (entry : Option (Except AppError (List DomainItem))) : List DomainItem :=
  if wanted then
    match entry with
    | some (.ok v) => v
    | some (.error e) => [make_error_item p (error_display_name p) e]
    | none => [not_configured_item p]
  else []

/-- The item list `domains_list` accumulates before its search filter:
eight independent provider blocks in source order. -/
def domains_items (env : DomainsEnv) (provider_filter : Option Provider) : List DomainItem :=
  provider_block (wants_provider provider_filter .cloudflare) .cloudflare env.cloudflare ++
  provider_block (wants_provider provider_filter .dnspod) .dnspod env.dnspod ++
  provider_block (wants_provider provider_filter .aliyun) .aliyun env.aliyun ++
  provider_block (wants_provider provider_filter .huawei) .huawei env.huawei ++
  provider_block (wants_provider provider_filter .baidu) .baidu env.baidu ++
  provider_block (wants_provider provider_filter .dnscom) .dnscom env.dnscom ++
  provider_block (wants_provider provider_filter .rainyun) .rainyun env.rainyun ++
  provider_block (wants_provider provider_filter .tencentcloud) .tencentcloud env.tencentcloud

/-- `domains_list` from `commands.rs` (vault decryption assumed to have
succeeded): the eight provider blocks, then the search filter. -/
def domains_list (env : DomainsEnv) (provider_filter : Option Provider)
    (search : Option String) : List DomainItem :=
  let search_norm := strToLower (search.getD "")
  if search_norm.isEmpty then domains_items env provider_filter
  else (domains_items env provider_filter).filter
    (fun d => strContains (strToLower d.name) search_norm)

/-! ## Error taxonomy mapping (`error.rs`, `providers/rainyun.rs`,
`providers/dnspod.rs`) -/

/-- The transport-error shape of `reqwest::Error` relevant to
`From<reqwest::Error> for AppError`. -/
structure ReqwestError where
  is_timeout : Bool
  is_connect : Bool
  message : String
deriving DecidableEq, Repr

/-- `From<reqwest::Error> for AppError` in `error.rs`. -/
def app_error_from_reqwest (e : ReqwestError) : AppError :=
  if e.is_timeout then ⟨"timeout", e.message⟩
  else if e.is_connect then ⟨"unreachable", e.message⟩
  else ⟨"network_error", e.message⟩

/-- `reqwest::StatusCode::is_success` (2xx). -/
def is_http_success (status : Nat) : Bool :=
  200 ≤ status && status ≤ 299

/-- `parse_json_or_error` from `providers/rainyun.rs`: its HTTP-status
handling, with the JSON decoding outcome supplied as `decoded`. -/
def parse_json_or_error {α : Type} (status : Nat) (text : String) (code : String)
    (decoded : Except AppError α) : Except AppError α :=
  if !is_http_success status then
    let mapped := if status == 401 || status == 403 then "auth_failed" else code
    .error ⟨mapped, "HTTP " ++ natToString status ++ ": " ++ text⟩
  else decoded

/-- `parse_response` from `providers/dnspod.rs`: non-2xx statuses become
`http_error`; 2xx bodies that fail to decode (`decoded = .error serdeMsg`)
become `json_decode_failed`. -/
def parse_response {α : Type} (status : Nat) (reason text : String)
    (decoded : Except String α) : Except AppError α :=
  if !is_http_success status then
    .error ⟨"http_error",
      "HTTP " ++ natToString status ++ ": " ++ reason ++ " (response text: " ++ text ++ ")"⟩
  else
    match decoded with
    | .ok v => .ok v
    | .error e => .error ⟨"json_decode_failed",
        "Failed to decode response: " ++ e ++ " (response text: " ++ text ++ ")"⟩

/-! ## DNSPod client (`providers/dnspod.rs`) -/

/-- `DnspodStatus`: the provider's response envelope status. -/
structure DnspodStatus where
  code : String
  message : String
deriving DecidableEq, Repr

/-- `ensure_ok` from `providers/dnspod.rs`. -/
def ensure_ok (status : DnspodStatus) : Except AppError Unit :=
  if status.code == "1" then .ok ()
  else .error ⟨"auth_failed", status.message⟩

/-- `DnspodDomain` (fields used by `list_domains`). -/
structure DnspodDomain where
  id : Nat
  name : String
  records : String
  updated_on : String
deriving DecidableEq, Repr

/-- `DnspodRecord` from `providers/dnspod.rs`. -/
structure DnspodRecord where
  id : String
  name : String
  record_type : Option String
  value : Option String
  ttl : Option String
  mx : Option String
deriving DecidableEq, Repr

/-- `parse::<u32>`. -/
def parseU32 (s : String) : Option Nat := rustParseUnsigned (2 ^ 32) s

/-- `DnspodRecord::to_dns_record` from `providers/dnspod.rs`. -/
def DnspodRecord.to_dns_record (r : DnspodRecord) (domain_name : String)
    (default_record_type : Option String) (default_value : Option String)
    (default_ttl : Option Nat) (default_mx : Option Nat) : DnsRecord :=
  let record_type := (r.record_type <|> default_record_type).getD "A"
  let value := (r.value <|> default_value).getD ""
  let srvTuple : String × Option Nat × Option Nat × Option Nat :=
    if record_type == "SRV" then
      match splitWhitespace value with
      | p0 :: p1 :: p2 :: p3 :: rest =>
        (joinSpace (p3 :: rest), parseU16 p0, parseU16 p1, parseU16 p2)
      | _ => (value, none, none, none)
    else (value, none, none, none)
  let content := srvTuple.1
  let caaTuple : Option Nat × Option String × String :=
    if record_type == "CAA" then
      match splitWhitespace value with
      | p0 :: p1 :: p2 :: rest => (parseU8 p0, some p1, joinSpace (p2 :: rest))
      | _ => (none, none, value)
    else (none, none, content)
  { id := r.id
    provider := .dnspod
    domain := domain_name
    record_type := record_type
    name := r.name
    content := caaTuple.2.2
    ttl := ((r.ttl.bind parseU32) <|> default_ttl).getD 600
    mx_priority := (r.mx.bind parseU16) <|> default_mx
    srv_priority := srvTuple.2.1
    srv_weight := srvTuple.2.2.1
    srv_port := srvTuple.2.2.2
    caa_flags := caaTuple.1
    caa_tag := caaTuple.2.1 }

/-- `dnspod_value` from `providers/dnspod.rs` (textually identical to
`tencent_value`). -/
def dnspod_value (record_type content : String) (srv_priority srv_weight srv_port : Option Nat)
    (caa_flags : Option Nat) (caa_tag : Option String) : String :=
  match record_type with
  | "SRV" =>
    natToString (srv_priority.getD 0) ++ " " ++ natToString (srv_weight.getD 0) ++ " " ++
      natToString (srv_port.getD 0) ++ " " ++ content
  | "CAA" =>
    natToString (caa_flags.getD 0) ++ " " ++ caa_tag.getD "issue" ++ " " ++ content
  | _ => content

/-- `DnspodDomainListResponse`. -/
structure DnspodDomainListResponse where
  status : DnspodStatus
  domains : Option (List DnspodDomain)
deriving DecidableEq, Repr

/-- `DnspodRecordListResponse`. -/
structure DnspodRecordListResponse where
  status : DnspodStatus
  records : Option (List DnspodRecord)
deriving DecidableEq, Repr

/-- `DnspodRecordCreateResponse` (also the shape of
`DnspodRecordModifyResponse`). -/
structure DnspodRecordCreateResponse where
  status : DnspodStatus
  record : Option DnspodRecord
deriving DecidableEq, Repr

/-- `DnspodStatusResponse`. -/
structure DnspodStatusResponse where
  status : DnspodStatus
deriving DecidableEq, Repr

/-- Response processing of `DnspodClient::domain_list` (also the body of
`test` and `list_domains`), given the HTTP response. -/
def dnspod_domain_list_handle (status : Nat) (reason text : String)
    (decoded : Except String DnspodDomainListResponse) : Except AppError (List DnspodDomain) :=
  match parse_response status reason text decoded with
  | .error e => .error e
  | .ok parsed =>
    match ensure_ok parsed.status with
    | .error e => .error e
    | .ok _ => .ok (parsed.domains.getD [])

/-- Response processing of `DnspodClient::list_records`. -/
def dnspod_list_records_handle (domain_name : String) (status : Nat) (reason text : String)
    (decoded : Except String DnspodRecordListResponse) : Except AppError (List DnsRecord) :=
  match parse_response status reason text decoded with
  | .error e => .error e
  | .ok parsed =>
    match ensure_ok parsed.status with
    | .error e => .error e
    | .ok _ =>
      .ok ((parsed.records.getD []).map (fun r => r.to_dns_record domain_name none none none none))

/-- Response processing of `DnspodClient::create_record` (the
`Record.Create` reply; `value` is the encoded record value the request
carried). -/
def dnspod_create_record_handle (domain_name : String) (req : RecordCreateRequest)
    (value : String) (status : Nat) (reason text : String)
    (decoded : Except String DnspodRecordCreateResponse) : Except AppError DnsRecord :=
  match parse_response status reason text decoded with
  | .error e => .error e
  | .ok parsed =>
    match ensure_ok parsed.status with
    | .error e => .error e
    | .ok _ =>
      match parsed.record with
      | none => .error ⟨"internal_error", "missing record"⟩
      | some record =>
        .ok (record.to_dns_record domain_name (some req.record_type) (some value) (some req.ttl)
          req.mx_priority)

/-- Response processing of `DnspodClient::update_record`. -/
def dnspod_update_record_handle (domain_name : String) (req : RecordUpdateRequest)
    (value : String) (status : Nat) (reason text : String)
    (decoded : Except String DnspodRecordCreateResponse) : Except AppError DnsRecord :=
  match parse_response status reason text decoded with
  | .error e => .error e
  | .ok parsed =>
    match ensure_ok parsed.status with
    | .error e => .error e
    | .ok _ =>
      match parsed.record with
      | none => .error ⟨"internal_error", "missing record"⟩
      | some record =>
        .ok (record.to_dns_record domain_name (some req.record_type) (some value) (some req.ttl)
          req.mx_priority)

/-- Response processing of `DnspodClient::delete_record`. -/
def dnspod_delete_record_handle (status : Nat) (reason text : String)
    (decoded : Except String DnspodStatusResponse) : Except AppError Unit :=
  match parse_response status reason text decoded with
  | .error e => .error e
  | .ok parsed =>
    match ensure_ok parsed.status with
    | .error e => .error e
    | .ok _ => .ok ()

/-! ## Aliyun and Baidu record conversion (`providers/aliyun.rs`,
`providers/baidu.rs`) -/

/-- `AliyunRecord` from `providers/aliyun.rs`. -/
structure AliyunRecord where
  record_id : String
  rr : String
  record_type : String
  value : String
  ttl : Nat
  priority : Option Nat
deriving DecidableEq, Repr

/-- `AliyunRecord::to_dns_record` from `providers/aliyun.rs` (the record
value is copied into `content` unchanged; no codec is applied). -/
def AliyunRecord.to_dns_record (r : AliyunRecord) (domain_name : String) : DnsRecord :=
  { id := r.record_id
    provider := .aliyun
    domain := domain_name
    record_type := r.record_type
    name := r.rr
    content := r.value
    ttl := r.ttl
    mx_priority := r.priority
    srv_priority := none
    srv_weight := none
    srv_port := none
    caa_flags := none
    caa_tag := none }

/-- `BaiduRecord` from `providers/baidu.rs`. -/
structure BaiduRecord where
  id : String
  rr : String
  record_type : String
  value : String
  ttl : Nat
  priority : Option Nat
deriving DecidableEq, Repr

/-- `parse_baidu_record_value` from `providers/baidu.rs` (textually
identical to `parse_record_value`). -/
def parse_baidu_record_value (record_type value : String) : ParsedValue :=
  match record_type with
  | "SRV" =>
    match splitWhitespace value with
    | p0 :: p1 :: p2 :: p3 :: rest =>
      ⟨joinSpace (p3 :: rest), parseU16 p0, parseU16 p1, parseU16 p2, none, none⟩
    | _ => ⟨value, none, none, none, none, none⟩
  | "CAA" =>
    match splitWhitespace value with
    | p0 :: p1 :: p2 :: rest =>
      ⟨joinSpace (p2 :: rest), none, none, none, parseU8 p0, some p1⟩
    | _ => ⟨value, none, none, none, none, none⟩
  | _ => ⟨value, none, none, none, none, none⟩

/-- `BaiduRecord::to_dns_record` from `providers/baidu.rs`. -/
def BaiduRecord.to_dns_record (r : BaiduRecord) (domain_name : String) : DnsRecord :=
  let parsed := parse_baidu_record_value r.record_type r.value
  { id := r.id
    provider := .baidu
    domain := domain_name
    record_type := r.record_type
    name := r.rr
    content := parsed.content
    ttl := r.ttl
    mx_priority := r.priority
    srv_priority := parsed.srv_priority
    srv_weight := parsed.srv_weight
    srv_port := parsed.srv_port
    caa_flags := parsed.caa_flags
    caa_tag := parsed.caa_tag }

/-! ## Tencent Cloud signer (`TencentCloudClient::request` in
`providers/tencentcloud.rs`) -/

/-- The authentication-relevant pieces `TencentCloudClient::request`
computes for a request body. -/
structure TencentSignedRequest where
  canonical_request : String
  credential_scope : String
  string_to_sign : String
  secret_date : List Nat
  secret_service : List Nat
  secret_signing : List Nat
  signature : String
  authorization : String
  x_tc_timestamp : String
deriving DecidableEq, Repr

/-- The TC3-HMAC-SHA256 signing computation of
`TencentCloudClient::request`, with `Utc::now()` supplied once as the
pair of its Unix timestamp and its `%Y-%m-%d` date string (the source
computes `now` once and derives both from it). -/
def tencent_request_signing (secret_id secret_key : String) (timestamp : Nat) (date : String)
    (payload_str : String) : TencentSignedRequest :=
  let canonical_request :=
    "POST\n/\n\ncontent-type:application/json; charset=utf-8\nhost:dnspod.tencentcloudapi.com\n\ncontent-type;host\n"
      ++ hexEncode (sha256 (utf8Bytes payload_str))
  let credential_scope := date ++ "/dnspod/tc3_request"
  let string_to_sign :=
    "TC3-HMAC-SHA256\n" ++ natToString timestamp ++ "\n" ++ credential_scope ++ "\n"
      ++ hexEncode (sha256 (utf8Bytes canonical_request))
  let secret_date := hmacSha256 (utf8Bytes ("TC3" ++ secret_key)) (utf8Bytes date)
  let secret_service := hmacSha256 secret_date (utf8Bytes "dnspod")
  let secret_signing := hmacSha256 secret_service (utf8Bytes "tc3_request")
  let signature := hexEncode (hmacSha256 secret_signing (utf8Bytes string_to_sign))
  let authorization :=
    "TC3-HMAC-SHA256 Credential=" ++ secret_id ++ "/" ++ credential_scope
      ++ ", SignedHeaders=content-type;host, Signature=" ++ signature
  { canonical_request := canonical_request
    credential_scope := credential_scope
    string_to_sign := string_to_sign
    secret_date := secret_date
    secret_service := secret_service
    secret_signing := secret_signing
    signature := signature
    authorization := authorization
    x_tc_timestamp := natToString timestamp }

/-! ## Supporting lemmas: decimal rendering and parsing -/

theorem isWS_eq_false_of_digit (c : Char) (h : isDigitChar c = true) : isWS c = false := by
  simp only [isDigitChar, Bool.and_eq_true, decide_eq_true_eq] at h
  simp only [isWS, Bool.or_eq_false_iff, decide_eq_false_iff_not]
  refine ⟨⟨⟨⟨⟨?_, ?_⟩, ?_⟩, ?_⟩, ?_⟩, ?_⟩ <;> (rintro rfl; exact absurd h (by decide))

theorem digitChar_toNat (n : Nat) (h : n < 10) : (digitChar n).toNat = 48 + n := by
  interval_cases n <;> decide

theorem isDigitChar_digitChar (n : Nat) (h : n < 10) : isDigitChar (digitChar n) = true := by
  interval_cases n <;> decide

theorem digit_ne_plus (c : Char) (h : isDigitChar c = true) : c ≠ '+' := by
  rintro rfl
  exact absurd h (by decide)

theorem natDigitsAux_ne_nil (n fuel : Nat) (h : 1 ≤ fuel) : natDigitsAux n fuel ≠ [] := by
  cases fuel with
  | zero => omega
  | succ f =>
    unfold natDigitsAux
    split
    · simp
    · simp

theorem natDigitsAux_all_digit (fuel : Nat) :
    ∀ n, (natDigitsAux n fuel).all isDigitChar = true := by
  induction fuel with
  | zero => intro n; rfl
  | succ f ih =>
    intro n
    unfold natDigitsAux
    split
    · simpa using isDigitChar_digitChar n (by omega)
    · rw [List.all_append, Bool.and_eq_true]
      exact ⟨ih (n / 10), by simpa using isDigitChar_digitChar (n % 10) (Nat.mod_lt _ (by omega))⟩

theorem natDigitsAux_foldl (fuel : Nat) :
    ∀ n acc, n ≤ fuel →
      (natDigitsAux n fuel).foldl (fun a c => a * 10 + (c.toNat - 48)) acc =
        acc * 10 ^ (natDigitsAux n fuel).length + n := by
  induction fuel with
  | zero =>
    intro n acc h
    have : n = 0 := by omega
    subst this
    simp [natDigitsAux]
  | succ f ih =>
    intro n acc h
    unfold natDigitsAux
    split
    · rename_i hlt
      simp [List.foldl, digitChar_toNat n hlt]
    · rename_i hge
      have h10 : 10 ≤ n := by omega
      have hrec : n / 10 ≤ f := by
        have : n / 10 < n := Nat.div_lt_self (by omega) (by omega)
        omega
      rw [List.foldl_append, ih (n / 10) acc hrec]
      have hd : (digitChar (n % 10)).toNat = 48 + n % 10 :=
        digitChar_toNat _ (Nat.mod_lt _ (by omega))
      simp only [List.foldl, hd, List.length_append, List.length_singleton]
      rw [Nat.add_mul, Nat.pow_succ, ← Nat.mul_assoc]
      omega

theorem natToString_data_ne_nil (n : Nat) : (natToString n).data ≠ [] :=
  natDigitsAux_ne_nil n (n + 1) (by omega)

theorem natToString_all_digit (n : Nat) : (natToString n).data.all isDigitChar = true :=
  natDigitsAux_all_digit (n + 1) n

theorem natToString_no_ws (n : Nat) :
    (natToString n).data.all (fun c => !isWS c) = true := by
  rw [List.all_eq_true]
  intro c hc
  have hd := natToString_all_digit n
  rw [List.all_eq_true] at hd
  simp [isWS_eq_false_of_digit c (by simpa using hd c hc)]

/-- Rendering an unsigned integer and parsing it back with a sufficient
bound recovers the integer. -/
theorem rustParseUnsigned_natToString (bound n : Nat) (h : n < bound) :
    rustParseUnsigned bound (natToString n) = some n := by
  have hne := natToString_data_ne_nil n
  have hall := natToString_all_digit n
  obtain ⟨c, t, hct⟩ : ∃ c t, (natToString n).data = c :: t := by
    cases hcs : (natToString n).data with
    | nil => exact absurd hcs hne
    | cons c t => exact ⟨c, t, rfl⟩
  have hcdigit : isDigitChar c = true := by
    rw [List.all_eq_true] at hall
    simpa using hall c (by rw [hct]; exact List.mem_cons_self c t)
  have hplus : (natToString n).data.headD 'x' ≠ '+' := by
    rw [hct]
    simpa using digit_ne_plus c hcdigit
  unfold rustParseUnsigned
  simp only [if_neg hplus]
  have hval : digitsValue (natToString n).data = some n := by
    unfold digitsValue
    rw [if_neg (by simp [hct]), if_pos hall]
    have := natDigitsAux_foldl (n + 1) n 0 (by omega)
    simpa [natToString] using this
  rw [hval]
  simp [h]

/-! ## Supporting lemmas: whitespace tokenization -/

theorem splitWSAux_cons_nonws (c : Char) (cs acc : List Char) (hc : isWS c = false) :
    splitWSAux (c :: cs) acc = splitWSAux cs (c :: acc) := by
  simp [splitWSAux, hc]

theorem splitWSAux_space (cs acc : List Char) :
    splitWSAux (' ' :: cs) acc =
      if acc.isEmpty then splitWSAux cs [] else acc.reverse :: splitWSAux cs [] := by
  have h : isWS ' ' = true := by decide
  simp [splitWSAux, h]

theorem splitWSAux_token (t : List Char) :
    ∀ (acc rest : List Char), t ≠ [] → t.all (fun c => !isWS c) = true →
      splitWSAux (t ++ ' ' :: rest) acc = (acc.reverse ++ t) :: splitWSAux rest [] := by
  induction t with
  | nil => intro acc rest h _; exact absurd rfl h
  | cons c t ih =>
    intro acc rest _ hall
    rw [List.all_cons, Bool.and_eq_true] at hall
    have hc : isWS c = false := by simpa using hall.1
    rw [List.cons_append, splitWSAux_cons_nonws c _ acc hc]
    cases t with
    | nil =>
      rw [List.nil_append, splitWSAux_space]
      simp
    | cons c2 t2 =>
      rw [ih (c :: acc) rest (by simp) hall.2]
      simp

theorem splitWhitespace_token_cons (t rest : String) (ht : t.data ≠ [])
    (hall : t.data.all (fun c => !isWS c) = true) :
    splitWhitespace (t ++ (" " ++ rest)) = t :: splitWhitespace rest := by
  unfold splitWhitespace
  have hdata : (t ++ (" " ++ rest)).data = t.data ++ ' ' :: rest.data := by
    simp [String.data_append]
  rw [hdata, splitWSAux_token t.data [] rest.data ht hall]
  simp

theorem splitWhitespace_natToString_cons (n : Nat) (rest : String) :
    splitWhitespace (natToString n ++ (" " ++ rest)) =
      natToString n :: splitWhitespace rest :=
  splitWhitespace_token_cons _ rest (natToString_data_ne_nil n) (natToString_no_ws n)

/-! ## Claim C5: record value codec roundtrip -/

/-- C5 (counterexample): the codec roundtrip is not the identity on every
validation-accepted input.  The SRV request with content `"a  b"` (two
inner spaces) passes `validate_record_request`, but decoding the encoded
value yields content `"a b"`: `split_whitespace` collapses whitespace
runs, so the recovered content differs from the original. -/
theorem record_value_codec_roundtrip_cex :
    validate_record_request
      ⟨"SRV", "_sip._tcp", "a  b", 600, .doNotCreate, none, some 1, some 2, some 3, none, none⟩
      = .ok () ∧
    tencent_value "SRV" "a  b" (some 1) (some 2) (some 3) none none = "1 2 3 a  b" ∧
    parse_record_value "SRV" "1 2 3 a  b" = ⟨"a b", some 1, some 2, some 3, none, none⟩ ∧
    "a b" ≠ "a  b" := by
  refine ⟨?_, ?_, ?_, ?_⟩ <;> decide

/-- C5 (amended): for inputs accepted by validation whose content is
whitespace-normalized (`split_whitespace`-then-join is the identity on
it, and it has at least one token), and — for CAA — whose tag is present
and a single whitespace-free token, decoding the encoded flat string
recovers the original structured values: SRV recovers priority, weight,
port (as present values, within the `u16` range the Rust types
guarantee) and the target as content; CAA recovers flags (within `u8`)
and tag, and the value as content. -/
theorem record_value_codec_roundtrip (c : String) (p w port flags : Nat) (tag : String)
    (fl sp sw spo : Option Nat) (tg : Option String)
    (hne : splitWhitespace c ≠ [])
    (hnorm : joinSpace (splitWhitespace c) = c) :
    (p < 65536 → w < 65536 → port < 65536 →
      parse_record_value "SRV" (tencent_value "SRV" c (some p) (some w) (some port) fl tg) =
        ⟨c, some p, some w, some port, none, none⟩) ∧
    (flags < 256 → tag.data ≠ [] → tag.data.all (fun ch => !isWS ch) = true →
      parse_record_value "CAA" (tencent_value "CAA" c sp sw spo (some flags) (some tag)) =
        ⟨c, none, none, none, some flags, some tag⟩) := by
  obtain ⟨d, rest, hd⟩ : ∃ d rest, splitWhitespace c = d :: rest := by
    cases hcs : splitWhitespace c with
    | nil => exact absurd hcs hne
    | cons d rest => exact ⟨d, rest, rfl⟩
  have hcback : joinSpace (d :: rest) = c := by rw [← hd, hnorm]
  constructor
  · intro hp hw hport
    have hsp : splitWhitespace (tencent_value "SRV" c (some p) (some w) (some port) fl tg) =
        natToString p :: natToString w :: natToString port :: splitWhitespace c := by
      show splitWhitespace
        (natToString p ++ " " ++ natToString w ++ " " ++ natToString port ++ " " ++ c) = _
      simp only [String.append_assoc]
      rw [splitWhitespace_natToString_cons, splitWhitespace_natToString_cons,
        splitWhitespace_natToString_cons]
    simp only [parse_record_value, hsp, hd]
    simp [parseU16, rustParseUnsigned_natToString 65536 p hp,
      rustParseUnsigned_natToString 65536 w hw,
      rustParseUnsigned_natToString 65536 port hport, hcback]
  · intro hflags htagne htagtok
    have hsp : splitWhitespace (tencent_value "CAA" c sp sw spo (some flags) (some tag)) =
        natToString flags :: tag :: splitWhitespace c := by
      show splitWhitespace (natToString flags ++ " " ++ tag ++ " " ++ c) = _
      simp only [String.append_assoc]
      rw [splitWhitespace_natToString_cons, splitWhitespace_token_cons tag _ htagne htagtok]
    simp only [parse_record_value, hsp, hd]
    simp [parseU8, rustParseUnsigned_natToString 256 flags hflags, hcback]

/-- C5 (witness): the amended roundtrip at a concrete SRV and CAA input. -/
theorem record_value_codec_roundtrip_witness :
    parse_record_value "SRV"
        (tencent_value "SRV" "srv.example.com" (some 10) (some 20) (some 8443) none none) =
      ⟨"srv.example.com", some 10, some 20, some 8443, none, none⟩ ∧
    parse_record_value "CAA"
        (tencent_value "CAA" "letsencrypt.org" none none none (some 0) (some "issue")) =
      ⟨"letsencrypt.org", none, none, none, some 0, some "issue"⟩ :=
  ⟨(record_value_codec_roundtrip "srv.example.com" 10 20 8443 0 "issue"
      none none none none none (by decide) (by decide)).1 (by decide) (by decide) (by decide),
   (record_value_codec_roundtrip "letsencrypt.org" 10 20 8443 0 "issue"
      none none none none none (by decide) (by decide)).2 (by decide) (by decide) (by decide)⟩

/-! ## Supporting lemmas: suffixes and the name normalizer -/

theorem strEndsWith_iff (s suf : String) : strEndsWith s suf = true ↔ suf.data <:+ s.data :=
  List.isSuffixOf_iff_suffix

theorem dot_append_data (z : String) : ("." ++ z).data = '.' :: z.data := by
  have hdot : (".").data = ['.'] := rfl
  simp [String.data_append, hdot]

theorem triple_append_data (h z : String) :
    (h ++ "." ++ z).data = h.data ++ '.' :: z.data := by
  have hdot : (".").data = ['.'] := rfl
  simp [String.data_append, hdot]

theorem append_zone_ne_host (h z : String) : (h == h ++ "." ++ z) = false := by
  rw [beq_eq_false_iff_ne]
  intro heq
  have hlen := congrArg (fun s => s.data.length) heq
  simp only [triple_append_data, List.length_append, List.length_cons] at hlen
  omega

theorem append_zone_ne_zone (h z : String) : h ++ "." ++ z ≠ z := by
  intro heq
  have hlen := congrArg (fun s => s.data.length) heq
  simp only [triple_append_data, List.length_append, List.length_cons] at hlen
  omega

theorem strStripSuffix_append (a suf : String) : strStripSuffix (a ++ suf) suf = some a := by
  unfold strStripSuffix
  rw [if_pos ((strEndsWith_iff _ _).mpr (by rw [String.data_append]; exact List.suffix_append _ _))]
  rw [String.data_append, List.length_append]
  have : a.data.length + suf.data.length - suf.data.length = a.data.length := by omega
  rw [this, List.take_left]

theorem normalize_eq_zone (z h : String) (h1 : (h == "@" || h == z) = true) :
    normalize_full_name z h = z := by
  unfold normalize_full_name
  rw [if_pos h1]

theorem normalize_eq_host (z h : String) (h1 : (h == "@" || h == z) = false)
    (h2 : strEndsWith h ("." ++ z) = true) : normalize_full_name z h = h := by
  unfold normalize_full_name
  rw [if_neg (by simp [h1]), if_pos (by simp [h2])]

theorem normalize_eq_concat (z h : String) (h1 : (h == "@" || h == z) = false)
    (h2 : strEndsWith h ("." ++ z) = false) : normalize_full_name z h = h ++ "." ++ z := by
  unfold normalize_full_name
  rw [if_neg (by simp [h1]), if_neg (by simp [h2, append_zone_ne_host h z])]

/-! ## Claim C6: name normalizer roundtrip -/

/-- C6 (counterexample): the host `h = "example.com"` over the zone
`z = "example.com"` is in the claim's canonical relative form (it is not
`"@"` and does not end in the `"."`-prefixed zone suffix), yet
denormalizing and normalizing it yields `"@"`, not `h`; and the absolute
name equals the zone although `h ≠ "@"`, refuting the claim's "equals
`z` exactly when `h` is `"@"`". -/
theorem name_normalizer_roundtrip_cex :
    strEndsWith "example.com" ("." ++ "example.com") = false ∧
    normalize_full_name "example.com" "example.com" = "example.com" ∧
    cf_record_host "example.com" (normalize_full_name "example.com" "example.com") = "@" ∧
    ("example.com" : String) ≠ "@" := by
  refine ⟨?_, ?_, ?_, ?_⟩ <;> decide

/-- C6 (amended): for all hosts `h` and zones `z`: normalizing the
denormalized name gives back `h` whenever `h` is `"@"`, or `h` neither
ends in `"." ++ z` nor equals `z`; the denormalized name always ends in
`z`; and it equals `z` exactly when `h` is `"@"` or `h` is `z` itself. -/
theorem name_normalizer_roundtrip (h z : String) :
    ((h = "@" ∨ (strEndsWith h ("." ++ z) = false ∧ h ≠ z)) →
      cf_record_host z (normalize_full_name z h) = h) ∧
    strEndsWith (normalize_full_name z h) z = true ∧
    (normalize_full_name z h = z ↔ (h = "@" ∨ h = z)) := by
  by_cases h1 : (h == "@" || h == z) = true
  · have hz := normalize_eq_zone z h h1
    have hcases : h = "@" ∨ h = z := by
      rcases Bool.or_eq_true _ _ |>.mp h1 with hc | hc
      · exact Or.inl (by simpa using hc)
      · exact Or.inr (by simpa using hc)
    refine ⟨?_, ?_, ?_⟩
    · intro hcanon
      rw [hz]
      unfold cf_record_host
      rw [if_pos (by simp)]
      rcases hcanon with rfl | ⟨_, hne⟩
      · rfl
      · rcases hcases with rfl | rfl
        · rfl
        · exact absurd rfl hne
    · rw [hz, strEndsWith_iff]
    · rw [hz]
      simpa using hcases
  · have h1f : (h == "@" || h == z) = false := by simpa using h1
    have hneat : h ≠ "@" := by
      intro heq
      rw [heq] at h1f
      simp at h1f
    have hnez : h ≠ z := by
      intro heq
      rw [heq] at h1f
      simp at h1f
    by_cases h2 : strEndsWith h ("." ++ z) = true
    · have hh := normalize_eq_host z h h1f h2
      refine ⟨?_, ?_, ?_⟩
      · intro hcanon
        rcases hcanon with rfl | ⟨hend, _⟩
        · exact absurd rfl hneat
        · rw [hend] at h2
          exact absurd h2 (by simp)
      · rw [hh, strEndsWith_iff]
        have hsuf := (strEndsWith_iff _ _).mp h2
        rw [dot_append_data] at hsuf
        exact (List.suffix_cons '.' z.data).trans hsuf
      · rw [hh]
        constructor
        · intro heq; exact absurd heq hnez
        · rintro (rfl | rfl)
          · exact absurd rfl hneat
          · exact absurd rfl hnez
    · have h2f : strEndsWith h ("." ++ z) = false := by simpa using h2
      have hc := normalize_eq_concat z h h1f h2f
      refine ⟨?_, ?_, ?_⟩
      · intro _
        rw [hc]
        unfold cf_record_host
        rw [if_neg (by simpa using append_zone_ne_zone h z)]
        rw [String.append_assoc, strStripSuffix_append]
      · rw [hc, strEndsWith_iff, triple_append_data]
        calc z.data <:+ '.' :: z.data := List.suffix_cons '.' z.data
          _ <:+ h.data ++ '.' :: z.data := List.suffix_append _ _
      · rw [hc]
        constructor
        · intro heq; exact absurd heq (append_zone_ne_zone h z)
        · rintro (rfl | rfl)
          · exact absurd rfl hneat
          · exact absurd rfl hnez

/-- C6 (witness): the amended roundtrip at concrete hosts and zones. -/
theorem name_normalizer_roundtrip_witness :
    cf_record_host "example.com" (normalize_full_name "example.com" "www") = "www" ∧
    strEndsWith (normalize_full_name "example.com" "www") "example.com" = true ∧
    normalize_full_name "example.com" "@" = "example.com" :=
  ⟨(name_normalizer_roundtrip "www" "example.com").1 (Or.inr ⟨by decide, by decide⟩),
   (name_normalizer_roundtrip "www" "example.com").2.1,
   (name_normalizer_roundtrip "@" "example.com").2.2.mpr (Or.inl rfl)⟩

/-! ## Claim C4: validation runs before any network call, with the
spec's examples -/

/-- C4: (1) when `validate_record_request` rejects a request,
`record_create` returns that validation error having issued no provider
call at all, for every provider and environment; (2) `ttl = 30` is
rejected with `invalid_ttl`; (3) on an otherwise-valid A request the
validator accepts exactly the TTLs in `[60, 86400]`; (4) an A record
with content `"10.0.0.1"` passes; (5) an AAAA record with content
`"bad"` is rejected with `invalid_content`; (6) an SRV record named
`"sip.example"` (fields present, but the first two labels lack `'_'`)
is rejected with `invalid_name`. -/
theorem validation_before_network :
    (∀ (env : RecordCreateEnv) (p : Provider) (did dn : String) (req : RecordCreateRequest)
        (e : AppError), validate_record_request req = .error e →
        record_create env p did dn req = ([], .error e)) ∧
    validate_record_request
        ⟨"A", "www", "10.0.0.1", 30, .doNotCreate, none, none, none, none, none, none⟩ =
      .error ⟨"invalid_ttl", "TTL 必须在 60-86400 秒之间"⟩ ∧
    (∀ t : Nat,
      validate_record_request
          ⟨"A", "www", "10.0.0.1", t, .doNotCreate, none, none, none, none, none, none⟩ =
        .ok () ↔ (60 ≤ t ∧ t ≤ 86400)) ∧
    validate_record_request
        ⟨"A", "www", "10.0.0.1", 600, .doNotCreate, none, none, none, none, none, none⟩ =
      .ok () ∧
    validate_record_request
        ⟨"AAAA", "www", "bad", 600, .doNotCreate, none, none, none, none, none, none⟩ =
      .error ⟨"invalid_content", "AAAA 记录必须是有效的 IPv6 地址"⟩ ∧
    validate_record_request
        ⟨"SRV", "sip.example", "target.example.com", 600, .doNotCreate, none,
          some 1, some 2, some 3, none, none⟩ =
      .error ⟨"invalid_name", "SRV 主机记录需为 _service._proto 形式"⟩ := by
  refine ⟨?_, by decide, ?_, by decide, by decide, by decide⟩
  · intro env p did dn req e hval
    unfold record_create
    rw [hval]
  · intro t
    have hbase : validate_record_request
        ⟨"A", "www", "10.0.0.1", t, .doNotCreate, none, none, none, none, none, none⟩ =
        if t < 60 || t > 86400 then
          Except.error ⟨"invalid_ttl", "TTL 必须在 60-86400 秒之间"⟩
        else Except.ok () := rfl
    rw [hbase]
    by_cases hc : (t < 60 || t > 86400) = true
    · rw [if_pos hc]
      simp only [Bool.or_eq_true, decide_eq_true_eq] at hc
      constructor
      · intro habs; exact absurd habs (by simp)
      · intro hr; omega
    · rw [if_neg hc]
      simp only [Bool.or_eq_true, decide_eq_true_eq, not_or, Nat.not_lt, Nat.not_gt_eq] at hc
      constructor
      · intro _; omega
      · intro _; rfl

/-- A sample environment for `record_create` witnesses: every provider
configured; DNSPod's zone holds two A records named `www` (a double
conflict), Aliyun's zone holds exactly one. -/
def sample_env : RecordCreateEnv :=
  { cloudflare_configured := true, dnspod_configured := true, aliyun_configured := true
    huawei_configured := true, baidu_configured := true, dnscom_configured := true
    rainyun_configured := true, tencentcloud_configured := true
    cf_find_conflict_ids := .ok ["cf-1", "cf-2"]
    dnspod_list_records := .ok [
      ⟨"r1", .dnspod, "example.com", "A", "www", "1.1.1.1", 600, none, none, none, none, none, none⟩,
      ⟨"r2", .dnspod, "example.com", "A", "www", "2.2.2.2", 600, none, none, none, none, none, none⟩]
    aliyun_list_records := .ok [
      ⟨"r9", .aliyun, "example.com", "A", "www", "3.3.3.3", 600, none, none, none, none, none, none⟩]
    huawei_list_records := .ok []
    baidu_list_records := .ok []
    dnscom_list_records := .ok []
    rainyun_list_records := .ok []
    tencentcloud_list_records := .ok [] }

/-- C4 (witness): the validation-first component applied at a concrete
provider, environment and invalid request, and the TTL-range component
applied at `t = 600`. -/
theorem validation_before_network_witness :
    record_create sample_env .dnspod "1" "example.com"
        ⟨"A", "www", "10.0.0.1", 30, .doNotCreate, none, none, none, none, none, none⟩ =
      ([], .error ⟨"invalid_ttl", "TTL 必须在 60-86400 秒之间"⟩) ∧
    (60 ≤ 600 ∧ 600 ≤ 86400) :=
  ⟨validation_before_network.1 sample_env .dnspod "1" "example.com"
      ⟨"A", "www", "10.0.0.1", 30, .doNotCreate, none, none, none, none, none, none⟩
      ⟨"invalid_ttl", "TTL 必须在 60-86400 秒之间"⟩ (by decide),
   (validation_before_network.2.2.1 600).mp (by decide)⟩

/-! ## Supporting lemmas: conflict resolution arms -/

theorem record_create_with_list_multi (did dn : String) (res : Except AppError (List DnsRecord))
    (req : RecordCreateRequest) (ids : List String)
    (hstrat : req.conflict_strategy = .overwrite)
    (hdet : conflict_ids_of_list req res = .ok ids)
    (hlen : 2 ≤ ids.length) :
    record_create_with_list did dn res req =
      ([ProviderCall.listRecords did dn],
        .error ⟨"conflict", "Multiple conflicting records found"⟩) := by
  cases res with
  | error e => simp [conflict_ids_of_list] at hdet
  | ok l =>
    simp only [conflict_ids_of_list, Except.ok.injEq] at hdet
    obtain ⟨a, b, t, hab⟩ : ∃ a b t,
        l.filter (fun r => r.record_type == req.record_type && r.name == req.name) =
          a :: b :: t := by
      rcases hx : l.filter (fun r => r.record_type == req.record_type && r.name == req.name) with
        _ | ⟨a, _ | ⟨b, t⟩⟩
      · rw [hx] at hdet; rw [← hdet] at hlen; simp at hlen
      · rw [hx] at hdet; rw [← hdet] at hlen; simp at hlen
      · exact ⟨_, _, _, hx⟩
    simp [record_create_with_list, hab, hstrat]

theorem record_create_with_list_single (did dn : String) (res : Except AppError (List DnsRecord))
    (req : RecordCreateRequest) (cid : String)
    (hstrat : req.conflict_strategy = .overwrite)
    (hdet : conflict_ids_of_list req res = .ok [cid]) :
    record_create_with_list did dn res req =
      ([ProviderCall.listRecords did dn,
        ProviderCall.update did dn (overwrite_update cid req)], .ok ()) := by
  cases res with
  | error e => simp [conflict_ids_of_list] at hdet
  | ok l =>
    simp only [conflict_ids_of_list, Except.ok.injEq] at hdet
    rcases hx : l.filter (fun r => r.record_type == req.record_type && r.name == req.name) with
      _ | ⟨c, _ | ⟨c2, t2⟩⟩
    · rw [hx] at hdet; simp at hdet
    · rw [hx] at hdet
      simp only [List.map_cons, List.map_nil, List.cons.injEq, and_true] at hdet
      simp [record_create_with_list, hx, hstrat, hdet]
    · rw [hx] at hdet; simp at hdet

theorem record_create_cloudflare_multi (did dn : String) (ids : List String)
    (req : RecordCreateRequest)
    (hstrat : req.conflict_strategy = .overwrite)
    (hlen : 2 ≤ ids.length) :
    record_create_cloudflare did dn (.ok ids) req =
      ([ProviderCall.findConflictIds did dn req.record_type req.name],
        .error ⟨"conflict", "Multiple conflicting records found"⟩) := by
  obtain ⟨a, b, t, hab⟩ : ∃ a b t, ids = a :: b :: t := by
    rcases ids with _ | ⟨a, _ | ⟨b, t⟩⟩
    · simp at hlen
    · simp at hlen
    · exact ⟨_, _, _, rfl⟩
  simp [record_create_cloudflare, hab, hstrat]

theorem record_create_cloudflare_single (did dn : String) (cid : String)
    (req : RecordCreateRequest)
    (hstrat : req.conflict_strategy = .overwrite) :
    record_create_cloudflare did dn (.ok [cid]) req =
      ([ProviderCall.findConflictIds did dn req.record_type req.name,
        ProviderCall.update did dn (overwrite_update cid req)], .ok ()) := by
  simp [record_create_cloudflare, hstrat]

/-! ## Claim C1: two or more conflicts under Overwrite fail with
`conflict` and mutate nothing -/

/-- C1: for every provider, environment and validated request with
conflict strategy `Overwrite`, when conflict detection (server-side
`find_conflict_ids` for Cloudflare, client-side `(record_type, name)`
filtering of `list_records` for everyone else) finds two or more
matching records, `record_create` fails with code `conflict` and the
only provider call it has issued is the read-only detection call — no
create, update or delete. -/
theorem record_create_multi_conflict (env : RecordCreateEnv) (p : Provider)
    (did dn : String) (req : RecordCreateRequest) (ids : List String)
    (hval : validate_record_request req = .ok ())
    (hstrat : req.conflict_strategy = .overwrite)
    (hconf : provider_configured env p = true)
    (hdet : detected_conflict_ids env p req = .ok ids)
    (hlen : 2 ≤ ids.length) :
    record_create env p did dn req =
      ([detect_call p did dn req],
        .error ⟨"conflict", "Multiple conflicting records found"⟩) ∧
    isMutationCall (detect_call p did dn req) = false := by
  cases p <;>
    simp only [detected_conflict_ids] at hdet <;>
    simp only [provider_configured] at hconf <;>
    refine ⟨?_, rfl⟩ <;>
    simp only [record_create, hval, detect_call, hconf, if_true]
  · rw [hdet]
    exact record_create_cloudflare_multi did dn ids req hstrat hlen
  all_goals exact record_create_with_list_multi did dn _ req ids hstrat hdet hlen

/-- C1 (witness): the theorem at the sample environment's DNSPod zone,
which holds two A records named `www`. -/
theorem record_create_multi_conflict_witness :
    record_create sample_env .dnspod "42" "example.com"
        ⟨"A", "www", "10.0.0.1", 600, .overwrite, none, none, none, none, none, none⟩ =
      ([ProviderCall.listRecords "42" "example.com"],
        .error ⟨"conflict", "Multiple conflicting records found"⟩) :=
  (record_create_multi_conflict sample_env .dnspod "42" "example.com"
    ⟨"A", "www", "10.0.0.1", 600, .overwrite, none, none, none, none, none, none⟩
    ["r1", "r2"] (by decide) rfl rfl (by decide) (by decide)).1

/-! ## Claim C2: exactly one conflict under Overwrite becomes an update -/

/-- C2: for every provider, environment and validated request with
conflict strategy `Overwrite`, when conflict detection finds exactly one
matching record, `record_create` issues exactly the detection call
followed by one `update_record` call carrying the existing record's
provider-native ID and the new request's field values — no delete and no
create. -/
theorem record_create_single_overwrite (env : RecordCreateEnv) (p : Provider)
    (did dn : String) (req : RecordCreateRequest) (cid : String)
    (hval : validate_record_request req = .ok ())
    (hstrat : req.conflict_strategy = .overwrite)
    (hconf : provider_configured env p = true)
    (hdet : detected_conflict_ids env p req = .ok [cid]) :
    record_create env p did dn req =
      ([detect_call p did dn req,
        ProviderCall.update did dn (overwrite_update cid req)], .ok ()) ∧
    (overwrite_update cid req).id = cid ∧
    (overwrite_update cid req).record_type = req.record_type ∧
    (overwrite_update cid req).name = req.name ∧
    (overwrite_update cid req).content = req.content ∧
    (overwrite_update cid req).ttl = req.ttl ∧
    (overwrite_update cid req).mx_priority = req.mx_priority ∧
    (overwrite_update cid req).srv_priority = req.srv_priority ∧
    (overwrite_update cid req).srv_weight = req.srv_weight ∧
    (overwrite_update cid req).srv_port = req.srv_port ∧
    (overwrite_update cid req).caa_flags = req.caa_flags ∧
    (overwrite_update cid req).caa_tag = req.caa_tag ∧
    isMutationCall (detect_call p did dn req) = false := by
  cases p <;>
    simp only [detected_conflict_ids] at hdet <;>
    simp only [provider_configured] at hconf <;>
    refine ⟨?_, rfl, rfl, rfl, rfl, rfl, rfl, rfl, rfl, rfl, rfl, rfl, rfl⟩ <;>
    simp only [record_create, hval, detect_call, hconf, if_true]
  · rw [hdet]
    exact record_create_cloudflare_single did dn cid req hstrat
  all_goals exact record_create_with_list_single did dn _ req cid hstrat hdet

/-- C2 (witness): the theorem at the sample environment's Aliyun zone,
which holds exactly one A record named `www`; the issued update carries
its ID `"r9"` and the request's field values. -/
theorem record_create_single_overwrite_witness :
    record_create sample_env .aliyun "42" "example.com"
        ⟨"A", "www", "10.0.0.1", 600, .overwrite, none, none, none, none, none, none⟩ =
      ([ProviderCall.listRecords "42" "example.com",
        ProviderCall.update "42" "example.com"
          ⟨"r9", "A", "www", "10.0.0.1", 600, none, none, none, none, none, none⟩], .ok ()) :=
  (record_create_single_overwrite sample_env .aliyun "42" "example.com"
    ⟨"A", "www", "10.0.0.1", 600, .overwrite, none, none, none, none, none, none⟩
    "r9" (by decide) rfl rfl (by decide)).1

/-! ## Claim C8: the Tencent Cloud TC3-HMAC-SHA256 signer -/

/-- C8: for every credential pair, timestamp/date pair and request body,
the signer computes the string-to-sign as
`"TC3-HMAC-SHA256\n{ts}\n{date}/dnspod/tc3_request\n{hex sha256(canonical_request)}"`,
derives `secret_date = HMAC("TC3"+key, date)`,
`secret_service = HMAC(secret_date, "dnspod")` and
`secret_signing = HMAC(secret_service, "tc3_request")`, hex-encodes
`HMAC(secret_signing, string_to_sign)` as the signature, and puts the
same rendered timestamp into both the `X-TC-Timestamp` header and the
string-to-sign. -/
theorem tencent_signer_spec (secret_id secret_key : String) (timestamp : Nat) (date : String)
    (payload_str : String) :
    (tencent_request_signing secret_id secret_key timestamp date payload_str).string_to_sign =
      "TC3-HMAC-SHA256\n" ++ natToString timestamp ++ "\n" ++ date ++ "/dnspod/tc3_request" ++
        "\n" ++ hexEncode (sha256 (utf8Bytes
          (tencent_request_signing secret_id secret_key timestamp date payload_str).canonical_request)) ∧
    (tencent_request_signing secret_id secret_key timestamp date payload_str).secret_date =
      hmacSha256 (utf8Bytes ("TC3" ++ secret_key)) (utf8Bytes date) ∧
    (tencent_request_signing secret_id secret_key timestamp date payload_str).secret_service =
      hmacSha256
        (tencent_request_signing secret_id secret_key timestamp date payload_str).secret_date
        (utf8Bytes "dnspod") ∧
    (tencent_request_signing secret_id secret_key timestamp date payload_str).secret_signing =
      hmacSha256
        (tencent_request_signing secret_id secret_key timestamp date payload_str).secret_service
        (utf8Bytes "tc3_request") ∧
    (tencent_request_signing secret_id secret_key timestamp date payload_str).signature =
      hexEncode (hmacSha256
        (tencent_request_signing secret_id secret_key timestamp date payload_str).secret_signing
        (utf8Bytes
          (tencent_request_signing secret_id secret_key timestamp date payload_str).string_to_sign)) ∧
    (tencent_request_signing secret_id secret_key timestamp date payload_str).x_tc_timestamp =
      natToString timestamp ∧
    (tencent_request_signing secret_id secret_key timestamp date payload_str).string_to_sign =
      "TC3-HMAC-SHA256\n" ++
        (tencent_request_signing secret_id secret_key timestamp date payload_str).x_tc_timestamp ++
        "\n" ++
        (tencent_request_signing secret_id secret_key timestamp date payload_str).credential_scope ++
        "\n" ++ hexEncode (sha256 (utf8Bytes
          (tencent_request_signing secret_id secret_key timestamp date payload_str).canonical_request)) ∧
    (tencent_request_signing secret_id secret_key timestamp date payload_str).credential_scope =
      date ++ "/dnspod/tc3_request" := by
  refine ⟨?_, rfl, rfl, rfl, rfl, rfl, ?_, rfl⟩ <;>
    simp [tencent_request_signing, String.append_assoc]

/-! ## Claim C9: list_records must decode SRV/CAA values — Aliyun does not -/

/-- C9: the Aliyun `list_records` path violates the codec requirement.
For the SRV record `"1 2 3 srv.example.com"` returned by the provider,
`AliyunRecord::to_dns_record` leaves the whole flat value in `content`
with `srv_priority`/`srv_weight`/`srv_port` absent (and even copies the
provider's `Priority` field into `mx_priority`), while the codec — and
Baidu's `to_dns_record`, which applies it — decodes the same value into
content `"srv.example.com"` with priority 1, weight 2, port 3. -/
theorem aliyun_list_records_skips_codec :
    AliyunRecord.to_dns_record ⟨"654", "_sip._tcp", "SRV", "1 2 3 srv.example.com", 600, some 1⟩
        "example.com" =
      ⟨"654", .aliyun, "example.com", "SRV", "_sip._tcp", "1 2 3 srv.example.com", 600,
        some 1, none, none, none, none, none⟩ ∧
    parse_record_value "SRV" "1 2 3 srv.example.com" =
      ⟨"srv.example.com", some 1, some 2, some 3, none, none⟩ ∧
    BaiduRecord.to_dns_record ⟨"654", "_sip._tcp", "SRV", "1 2 3 srv.example.com", 600, none⟩
        "example.com" =
      ⟨"654", .baidu, "example.com", "SRV", "_sip._tcp", "srv.example.com", 600,
        none, some 1, some 2, some 3, none, none⟩ := by
  refine ⟨?_, ?_, ?_⟩ <;> decide

/-! ## Claim C10: every DNSPod envelope failure surfaces as auth_failed -/

/-- C10: `ensure_ok` maps every envelope whose `status.code` is not the
string `"1"` to an error with code `auth_failed` carrying the envelope
message, and therefore every DNSPod operation (`test`/`list_domains`
via `domain_list`, `list_records`, `create_record`, `update_record`,
`delete_record`) surfaces a 2xx provider-envelope failure as
`auth_failed` — never as `fetch_failed`/`create_failed`/
`update_failed`/`delete_failed`. -/
theorem dnspod_envelope_failure_is_auth_failed :
    (∀ st : DnspodStatus, st.code ≠ "1" →
      ensure_ok st = .error ⟨"auth_failed", st.message⟩) ∧
    (∀ (hs : Nat) (reason text : String) (resp : DnspodDomainListResponse),
      is_http_success hs = true → resp.status.code ≠ "1" →
      dnspod_domain_list_handle hs reason text (.ok resp) =
        .error ⟨"auth_failed", resp.status.message⟩) ∧
    (∀ (dn : String) (hs : Nat) (reason text : String) (resp : DnspodRecordListResponse),
      is_http_success hs = true → resp.status.code ≠ "1" →
      dnspod_list_records_handle dn hs reason text (.ok resp) =
        .error ⟨"auth_failed", resp.status.message⟩) ∧
    (∀ (dn : String) (req : RecordCreateRequest) (value : String) (hs : Nat)
        (reason text : String) (resp : DnspodRecordCreateResponse),
      is_http_success hs = true → resp.status.code ≠ "1" →
      dnspod_create_record_handle dn req value hs reason text (.ok resp) =
        .error ⟨"auth_failed", resp.status.message⟩) ∧
    (∀ (dn : String) (req : RecordUpdateRequest) (value : String) (hs : Nat)
        (reason text : String) (resp : DnspodRecordCreateResponse),
      is_http_success hs = true → resp.status.code ≠ "1" →
      dnspod_update_record_handle dn req value hs reason text (.ok resp) =
        .error ⟨"auth_failed", resp.status.message⟩) ∧
    (∀ (hs : Nat) (reason text : String) (resp : DnspodStatusResponse),
      is_http_success hs = true → resp.status.code ≠ "1" →
      dnspod_delete_record_handle hs reason text (.ok resp) =
        .error ⟨"auth_failed", resp.status.message⟩) := by
  have hko : ∀ st : DnspodStatus, st.code ≠ "1" →
      ensure_ok st = .error ⟨"auth_failed", st.message⟩ := by
    intro st hne
    unfold ensure_ok
    rw [if_neg (by simpa using hne)]
  refine ⟨hko, ?_, ?_, ?_, ?_, ?_⟩
  · intro hs reason text resp hok hne
    simp [dnspod_domain_list_handle, parse_response, hok, hko resp.status hne, Except.bind, Except.map]
  · intro dn hs reason text resp hok hne
    simp [dnspod_list_records_handle, parse_response, hok, hko resp.status hne, Except.bind, Except.map]
  · intro dn req value hs reason text resp hok hne
    simp [dnspod_create_record_handle, parse_response, hok, hko resp.status hne, Except.bind, Except.map]
  · intro dn req value hs reason text resp hok hne
    simp [dnspod_update_record_handle, parse_response, hok, hko resp.status hne, Except.bind, Except.map]
  · intro hs reason text resp hok hne
    simp [dnspod_delete_record_handle, parse_response, hok, hko resp.status hne, Except.bind, Except.map]

/-- C10 (witness): a concrete envelope failure (`status.code = "6"`,
message `"Invalid login token"`) on `delete_record` at HTTP 200. -/
theorem dnspod_envelope_failure_is_auth_failed_witness :
    dnspod_delete_record_handle 200 "OK" "body" (.ok ⟨⟨"6", "Invalid login token"⟩⟩) =
      .error ⟨"auth_failed", "Invalid login token"⟩ :=
  dnspod_envelope_failure_is_auth_failed.2.2.2.2.2 200 "OK" "body"
    ⟨⟨"6", "Invalid login token"⟩⟩ (by decide) (by decide)

/-! ## Claim C7: transport/status error taxonomy -/

/-- C7 (counterexample): an HTTP 401 does not map to `auth_failed` in
every provider client operation.  The DNSPod `delete_record` pipeline
(`parse_response`) maps the 401 response to `http_error`. -/
theorem error_taxonomy_cex :
    dnspod_delete_record_handle 401 "Unauthorized" "denied" (.ok ⟨⟨"1", "ok"⟩⟩) =
      .error ⟨"http_error", "HTTP 401: Unauthorized (response text: denied)"⟩ ∧
    ("http_error" : String) ≠ "auth_failed" := by
  exact ⟨by decide, by decide⟩

/-- C7 (amended): transport-level failures map uniformly — a request
timeout to `timeout` and a connection failure to `unreachable`
(`From<reqwest::Error>`, used by every provider); an HTTP 401/403
status maps to `auth_failed` in the Rainyun client's
`parse_json_or_error`; the DNSPod client instead maps every non-2xx
status — including 401 and 403 — to `http_error`. -/
theorem error_taxonomy (e : ReqwestError) (status : Nat) (text code reason : String) :
    (e.is_timeout = true → app_error_from_reqwest e = ⟨"timeout", e.message⟩) ∧
    (e.is_timeout = false → e.is_connect = true →
      app_error_from_reqwest e = ⟨"unreachable", e.message⟩) ∧
    (∀ (α : Type) (decoded : Except AppError α), status = 401 ∨ status = 403 →
      parse_json_or_error status text code decoded =
        .error ⟨"auth_failed", "HTTP " ++ natToString status ++ ": " ++ text⟩) ∧
    (∀ (α : Type) (decoded : Except String α), is_http_success status = false →
      parse_response status reason text decoded =
        .error ⟨"http_error",
          "HTTP " ++ natToString status ++ ": " ++ reason ++ " (response text: " ++ text ++ ")"⟩) := by
  refine ⟨?_, ?_, ?_, ?_⟩
  · intro ht
    simp [app_error_from_reqwest, ht]
  · intro ht hc
    simp [app_error_from_reqwest, ht, hc]
  · intro α decoded hs
    have hfail : is_http_success status = false := by
      rcases hs with rfl | rfl <;> decide
    have hcode : (status == 401 || status == 403) = true := by
      rcases hs with rfl | rfl <;> decide
    simp [parse_json_or_error, hfail, hcode]
  · intro α decoded hfail
    simp [parse_response, hfail]

/-- C7 (witness): the amended taxonomy at concrete inputs — a timeout
error, a connection error, a Rainyun 403, and a DNSPod 500. -/
theorem error_taxonomy_witness :
    app_error_from_reqwest ⟨true, false, "operation timed out"⟩ =
      ⟨"timeout", "operation timed out"⟩ ∧
    app_error_from_reqwest ⟨false, true, "connection refused"⟩ =
      ⟨"unreachable", "connection refused"⟩ ∧
    parse_json_or_error 403 "forbidden" "fetch_failed" (.ok ()) =
      .error ⟨"auth_failed", "HTTP 403: forbidden"⟩ ∧
    parse_response 500 "Internal Server Error" "boom" (.ok ()) =
      .error ⟨"http_error", "HTTP 500: Internal Server Error (response text: boom)"⟩ :=
  ⟨(error_taxonomy ⟨true, false, "operation timed out"⟩ 403 "forbidden" "fetch_failed"
      "Internal Server Error").1 rfl,
   (error_taxonomy ⟨false, true, "connection refused"⟩ 403 "forbidden" "fetch_failed"
      "Internal Server Error").2.1 rfl rfl,
   (error_taxonomy ⟨true, false, "x"⟩ 403 "forbidden" "fetch_failed"
      "Internal Server Error").2.2.1 Unit (.ok ()) (Or.inr rfl),
   (error_taxonomy ⟨true, false, "x"⟩ 500 "boom" "fetch_failed"
      "Internal Server Error").2.2.2 Unit (.ok ()) (by decide)⟩

/-! ## Supporting lemmas: domains_list aggregation -/

/-- Environment well-formedness: a provider's successful `list_domains`
result only contains items tagged with that provider (true of every
client in the source, which constructs its own `DomainItem`s). -/
def domains_env_wf (env : DomainsEnv) : Prop :=
  ∀ (p : Provider) (l : List DomainItem),
    domains_env_entry env p = some (.ok l) → ∀ d ∈ l, d.provider = p

theorem mem_provider_block (w : Bool) (q : Provider)
    (entry : Option (Except AppError (List DomainItem)))
    (hwf : ∀ l, entry = some (.ok l) → ∀ d ∈ l, d.provider = q) :
    ∀ d ∈ provider_block w q entry, d.provider = q := by
  intro d hd
  cases w with
  | false => simp [provider_block] at hd
  | true =>
    cases entry with
    | none =>
      simp [provider_block] at hd
      rw [hd]
      rfl
    | some r =>
      cases r with
      | ok v =>
        simp [provider_block] at hd
        exact hwf v rfl d hd
      | error e =>
        simp [provider_block] at hd
        rw [hd]
        rfl

theorem provider_block_filter_ne (w : Bool) (q : Provider)
    (entry : Option (Except AppError (List DomainItem)))
    (hwf : ∀ l, entry = some (.ok l) → ∀ d ∈ l, d.provider = q)
    (pred : DomainItem → Bool)
    (hpred : ∀ d, d.provider = q → pred d = false) :
    (provider_block w q entry).filter pred = [] := by
  rw [List.filter_eq_nil_iff]
  intro d hd
  simp [hpred d (mem_provider_block w q entry hwf d hd)]

theorem domains_items_filter (env : DomainsEnv) (f : Option Provider) (q : Provider)
    (hwf : domains_env_wf env) (pred : DomainItem → Bool)
    (hpred : ∀ d, d.provider ≠ q → pred d = false) :
    (domains_items env f).filter pred =
      (provider_block (wants_provider f q) q (domains_env_entry env q)).filter pred := by
  have hb : ∀ (r : Provider) (entry : Option (Except AppError (List DomainItem))), r ≠ q →
      (∀ l, entry = some (.ok l) → ∀ d ∈ l, d.provider = r) →
      (provider_block (wants_provider f r) r entry).filter pred = [] := by
    intro r entry hr hwfr
    refine provider_block_filter_ne _ r entry hwfr pred ?_
    intro d hd
    refine hpred d ?_
    rw [hd]
    exact hr
  cases q with
  | cloudflare =>
    simp only [domains_items, List.filter_append]
    rw [hb .dnspod env.dnspod (by decide) (hwf .dnspod),
      hb .aliyun env.aliyun (by decide) (hwf .aliyun),
      hb .huawei env.huawei (by decide) (hwf .huawei),
      hb .baidu env.baidu (by decide) (hwf .baidu),
      hb .dnscom env.dnscom (by decide) (hwf .dnscom),
      hb .rainyun env.rainyun (by decide) (hwf .rainyun),
      hb .tencentcloud env.tencentcloud (by decide) (hwf .tencentcloud)]
    simp [domains_env_entry]
  | dnspod =>
    simp only [domains_items, List.filter_append]
    rw [hb .cloudflare env.cloudflare (by decide) (hwf .cloudflare),
      hb .aliyun env.aliyun (by decide) (hwf .aliyun),
      hb .huawei env.huawei (by decide) (hwf .huawei),
      hb .baidu env.baidu (by decide) (hwf .baidu),
      hb .dnscom env.dnscom (by decide) (hwf .dnscom),
      hb .rainyun env.rainyun (by decide) (hwf .rainyun),
      hb .tencentcloud env.tencentcloud (by decide) (hwf .tencentcloud)]
    simp [domains_env_entry]
  | aliyun =>
    simp only [domains_items, List.filter_append]
    rw [hb .cloudflare env.cloudflare (by decide) (hwf .cloudflare),
      hb .dnspod env.dnspod (by decide) (hwf .dnspod),
      hb .huawei env.huawei (by decide) (hwf .huawei),
      hb .baidu env.baidu (by decide) (hwf .baidu),
      hb .dnscom env.dnscom (by decide) (hwf .dnscom),
      hb .rainyun env.rainyun (by decide) (hwf .rainyun),
      hb .tencentcloud env.tencentcloud (by decide) (hwf .tencentcloud)]
    simp [domains_env_entry]
  | huawei =>
    simp only [domains_items, List.filter_append]
    rw [hb .cloudflare env.cloudflare (by decide) (hwf .cloudflare),
      hb .dnspod env.dnspod (by decide) (hwf .dnspod),
      hb .aliyun env.aliyun (by decide) (hwf .aliyun),
      hb .baidu env.baidu (by decide) (hwf .baidu),
      hb .dnscom env.dnscom (by decide) (hwf .dnscom),
      hb .rainyun env.rainyun (by decide) (hwf .rainyun),
      hb .tencentcloud env.tencentcloud (by decide) (hwf .tencentcloud)]
    simp [domains_env_entry]
  | baidu =>
    simp only [domains_items, List.filter_append]
    rw [hb .cloudflare env.cloudflare (by decide) (hwf .cloudflare),
      hb .dnspod env.dnspod (by decide) (hwf .dnspod),
      hb .aliyun env.aliyun (by decide) (hwf .aliyun),
      hb .huawei env.huawei (by decide) (hwf .huawei),
      hb .dnscom env.dnscom (by decide) (hwf .dnscom),
      hb .rainyun env.rainyun (by decide) (hwf .rainyun),
      hb .tencentcloud env.tencentcloud (by decide) (hwf .tencentcloud)]
    simp [domains_env_entry]
  | dnscom =>
    simp only [domains_items, List.filter_append]
    rw [hb .cloudflare env.cloudflare (by decide) (hwf .cloudflare),
      hb .dnspod env.dnspod (by decide) (hwf .dnspod),
      hb .aliyun env.aliyun (by decide) (hwf .aliyun),
      hb .huawei env.huawei (by decide) (hwf .huawei),
      hb .baidu env.baidu (by decide) (hwf .baidu),
      hb .rainyun env.rainyun (by decide) (hwf .rainyun),
      hb .tencentcloud env.tencentcloud (by decide) (hwf .tencentcloud)]
    simp [domains_env_entry]
  | rainyun =>
    simp only [domains_items, List.filter_append]
    rw [hb .cloudflare env.cloudflare (by decide) (hwf .cloudflare),
      hb .dnspod env.dnspod (by decide) (hwf .dnspod),
      hb .aliyun env.aliyun (by decide) (hwf .aliyun),
      hb .huawei env.huawei (by decide) (hwf .huawei),
      hb .baidu env.baidu (by decide) (hwf .baidu),
      hb .dnscom env.dnscom (by decide) (hwf .dnscom),
      hb .tencentcloud env.tencentcloud (by decide) (hwf .tencentcloud)]
    simp [domains_env_entry]
  | tencentcloud =>
    simp only [domains_items, List.filter_append]
    rw [hb .cloudflare env.cloudflare (by decide) (hwf .cloudflare),
      hb .dnspod env.dnspod (by decide) (hwf .dnspod),
      hb .aliyun env.aliyun (by decide) (hwf .aliyun),
      hb .huawei env.huawei (by decide) (hwf .huawei),
      hb .baidu env.baidu (by decide) (hwf .baidu),
      hb .dnscom env.dnscom (by decide) (hwf .dnscom),
      hb .rainyun env.rainyun (by decide) (hwf .rainyun)]
    simp [domains_env_entry]

theorem domains_list_no_search (env : DomainsEnv) (f : Option Provider) :
    domains_list env f none = domains_items env f := rfl

theorem make_error_item_status (p : Provider) (dn : String) (e : AppError) :
    (make_error_item p dn e).status =
      (if e.code = "auth_failed" then DomainStatus.authFailed
       else if e.code = "unreachable" ∨ e.code = "timeout" then DomainStatus.unreachable
       else DomainStatus.fetchFailed) := by
  unfold make_error_item
  by_cases h1 : e.code = "auth_failed"
  · simp [h1]
  · by_cases h2 : e.code = "unreachable"
    · simp [h1, h2]
    · by_cases h3 : e.code = "timeout"
      · simp [h1, h3]
      · have hmatch : (match e.code with
            | "auth_failed" => DomainStatus.authFailed
            | "unreachable" | "timeout" => DomainStatus.unreachable
            | _ => DomainStatus.fetchFailed) = DomainStatus.fetchFailed := by
          split <;> simp_all
        simp [hmatch, h1, h2, h3]

/-! ## Claim C3: per-provider isolation in domains_list -/

/-- C3: in `domains_list`, each selected provider contributes to the
result independently.  With no search string: a selected provider with
no stored credentials contributes exactly one `NotConfigured`
placeholder, and a selected provider whose `list_domains` fails
contributes exactly one placeholder whose status is `AuthFailed` for
error code `auth_failed`, `Unreachable` for `unreachable` or `timeout`,
and `FetchFailed` otherwise.  And — for any filter and search — the
items carrying a provider `q` depend only on `q`'s own credentials and
`list_domains` outcome, so another provider's failure never removes
them. -/
theorem domains_list_provider_isolation :
    (∀ (env : DomainsEnv) (f : Option Provider) (p : Provider),
      domains_env_wf env → wants_provider f p = true →
      (domains_env_entry env p = none →
        (domains_list env f none).filter (fun d => d.provider == p) =
          [not_configured_item p]) ∧
      (∀ e : AppError, domains_env_entry env p = some (.error e) →
        (domains_list env f none).filter (fun d => d.provider == p) =
          [make_error_item p (error_display_name p) e] ∧
        (make_error_item p (error_display_name p) e).status =
          (if e.code = "auth_failed" then DomainStatus.authFailed
           else if e.code = "unreachable" ∨ e.code = "timeout" then DomainStatus.unreachable
           else DomainStatus.fetchFailed))) ∧
    (∀ (env1 env2 : DomainsEnv) (f : Option Provider) (s : Option String) (q : Provider),
      domains_env_wf env1 → domains_env_wf env2 →
      domains_env_entry env1 q = domains_env_entry env2 q →
      (domains_list env1 f s).filter (fun d => d.provider == q) =
        (domains_list env2 f s).filter (fun d => d.provider == q)) := by
  have hbeq : ∀ (q : Provider) (d : DomainItem), d.provider ≠ q → (d.provider == q) = false :=
    fun q d hd => beq_eq_false_iff_ne.mpr hd
  constructor
  · intro env f p hwf hw
    constructor
    · intro hnone
      rw [domains_list_no_search,
        domains_items_filter env f p hwf (fun d => d.provider == p) (hbeq p),
        hnone, hw]
      simp [provider_block, not_configured_item]
    · intro e herr
      refine ⟨?_, make_error_item_status p (error_display_name p) e⟩
      rw [domains_list_no_search,
        domains_items_filter env f p hwf (fun d => d.provider == p) (hbeq p),
        herr, hw]
      simp [provider_block, make_error_item]
  · intro env1 env2 f s q hwf1 hwf2 hq
    unfold domains_list
    by_cases hns : (strToLower (s.getD "")).isEmpty = true
    · rw [if_pos hns, if_pos hns,
        domains_items_filter env1 f q hwf1 (fun d => d.provider == q) (hbeq q),
        domains_items_filter env2 f q hwf2 (fun d => d.provider == q) (hbeq q), hq]
    · rw [if_neg hns, if_neg hns, List.filter_filter, List.filter_filter]
      have hpred : ∀ d : DomainItem, d.provider ≠ q →
          ((d.provider == q) &&
            strContains (strToLower d.name) (strToLower (s.getD ""))) = false := by
        intro d hd
        simp [hbeq q d hd]
      rw [domains_items_filter env1 f q hwf1 _ hpred,
        domains_items_filter env2 f q hwf2 _ hpred, hq]

/-- A sample environment for the `domains_list` witness: Cloudflare's
`list_domains` fails with `auth_failed`, DNSPod's succeeds with one
zone, every other provider is unconfigured. -/
def sample_domains_env : DomainsEnv :=
  { cloudflare := some (.error ⟨"auth_failed", "bad key"⟩)
    dnspod := some (.ok [⟨.dnspod, "example.com", "1", .ok, some 3, none⟩])
    aliyun := none, huawei := none, baidu := none
    dnscom := none, rainyun := none, tencentcloud := none }

/-- C3 (witness): in the sample environment, the unconfigured Aliyun
yields exactly its `NotConfigured` placeholder, the failing Cloudflare
yields exactly one `AuthFailed` placeholder, and changing Cloudflare's
outcome to a success does not change DNSPod's items. -/
theorem domains_list_provider_isolation_witness :
    (domains_list sample_domains_env none none).filter (fun d => d.provider == .aliyun) =
      [not_configured_item .aliyun] ∧
    (domains_list sample_domains_env none none).filter (fun d => d.provider == .cloudflare) =
      [make_error_item .cloudflare (error_display_name .cloudflare)
        ⟨"auth_failed", "bad key"⟩] ∧
    (domains_list sample_domains_env none none).filter (fun d => d.provider == .dnspod) =
      (domains_list { sample_domains_env with cloudflare := some (.ok []) } none none).filter
        (fun d => d.provider == .dnspod) := by
  have hwf1 : domains_env_wf sample_domains_env := by
    intro p l h d hd
    cases p <;> simp [domains_env_entry, sample_domains_env] at h
    all_goals subst h
    all_goals simp at hd
    all_goals rw [hd]
  have hwf2 : domains_env_wf { sample_domains_env with cloudflare := some (.ok []) } := by
    intro p l h d hd
    cases p <;> simp [domains_env_entry, sample_domains_env] at h
    all_goals subst h
    all_goals simp at hd
    all_goals rw [hd]
  refine ⟨?_, ?_, ?_⟩
  · exact (domains_list_provider_isolation.1 sample_domains_env none .aliyun hwf1 rfl).1 rfl
  · exact ((domains_list_provider_isolation.1 sample_domains_env none .cloudflare hwf1 rfl).2
      ⟨"auth_failed", "bad key"⟩ rfl).1
  · exact domains_list_provider_isolation.2 sample_domains_env
      { sample_domains_env with cloudflare := some (.ok []) } none none .dnspod hwf1 hwf2 rfl

end LaochenDNS
